import Mathlib

/-
Verification of the fleet-cost-intelligence analytics pipeline.

The TypeScript source is embedded shallowly:
- JavaScript numbers are modelled as rationals; where a claim is about
  NaN and Infinity behaviour (safeDivide) an explicit JSNum type with
  the IEEE special values is used instead.
- ISO 8601 timestamp strings are modelled by their parse result: a
  Timestamp is the value parseTimestamp would return, namely some
  epoch-milliseconds value, or none for an unparseable string.
- The two transcendental leaves of the pipeline, haversineDistance and
  the spherical-mean branch of calculateCentroid, are irrational-valued
  trigonometric computations; the pipeline is therefore parametrised
  over a distance function dist and a spherical-mean function mean and
  every theorem quantifies over them (with the nonnegativity that the
  real haversine formula enjoys taken as a hypothesis where needed).
  Nothing else in computeBaseMetrics depends on their values.
-/

namespace Fleet

/-- Parse result of an ISO 8601 timestamp string: some epoch time in
milliseconds, or none when parseTimestamp returns null. -/
abbrev Timestamp := Option ℚ

/-- GeoLocation record with lat and lng in decimal degrees. -/
structure GeoLocation where
  lat : ℚ
  lng : ℚ
deriving DecidableEq, Repr

/-- One GPS sample, from gps.types.ts. -/
structure GPSTrackPoint where
  latitude : ℚ
  longitude : ℚ
  speed : ℚ
  timestamp : Timestamp
  ignitionOn : Bool
deriving DecidableEq, Repr

/-- A GPS track for one vehicle over a declared period. -/
structure GPSTrackResponse where
  vehicleId : String
  startTime : Timestamp
  endTime : Timestamp
  points : List GPSTrackPoint
deriving Repr

/-- The numeric knobs of ANALYTICS_CONFIG used by the claims. -/
structure AnalyticsConfig where
  idleSpeedThresholdKmh : ℚ
  longIdleThresholdMinutes : ℚ
  speedingThresholdKmh : ℚ
  expectedKmPerHour : ℚ
  stopPenaltyFactor : ℚ
  idleRiskFactor : ℚ
deriving Repr

/-- Duration between two timestamps in minutes, from timeUtils.ts:
returns 0 when either timestamp fails to parse or when the end lies
before the start, otherwise the millisecond difference over 1000*60. -/
def getDurationMinutes (startTime endTime : Timestamp) : ℚ :=
  match startTime, endTime with
  | some s, some e =>
      let durationMs := e - s
      if durationMs < 0 then 0 else durationMs / (1000 * 60)
  | _, _ => 0

/-- Duration between two GPS track points in minutes. -/
def getPointDurationMinutes (point1 point2 : GPSTrackPoint) : ℚ :=
  getDurationMinutes point1.timestamp point2.timestamp

/-- Rational specialisation of safeDivide from timeUtils.ts, used inside
the pipeline where all quantities are finite: in the exact-rational
embedding the two Number.isFinite guards of the source are vacuous and
only the zero-denominator check remains. -/
def safeDivideQ (numerator denominator fallback : ℚ) : ℚ :=
  if denominator = 0 then fallback else numerator / denominator

/-- Clamp from timeUtils.ts: Math.min of Math.max value min, and max. -/
def clamp (value minValue maxValue : ℚ) : ℚ :=
  min (max value minValue) maxValue

-- ═══════════════════════════════════════════════════════════════════
-- JS number model for the safeDivide claim (C7)
-- ═══════════════════════════════════════════════════════════════════

/-- A JavaScript number: a finite value (modelled exactly as a
rational), one of the two infinities, or NaN. -/
inductive JSNum
  | finite (val : ℚ)
  | posInf
  | negInf
  | nan
deriving DecidableEq, Repr

/-- Number.isFinite. -/
def JSNum.isFinite : JSNum → Bool
  | .finite _ => true
  | _ => false

/-- IEEE-754 style division on JSNum. Finite by finite nonzero is exact
in this model (rationals do not overflow). -/
def JSNum.div : JSNum → JSNum → JSNum
  | .nan, _ => .nan
  | _, .nan => .nan
  | .finite a, .finite b =>
      if b = 0 then
        (if a = 0 then .nan else if 0 < a then .posInf else .negInf)
      else .finite (a / b)
  | .posInf, .finite b => if 0 ≤ b then .posInf else .negInf
  | .negInf, .finite b => if 0 ≤ b then .negInf else .posInf
  | .finite _, .posInf => .finite 0
  | .finite _, .negInf => .finite 0
  | .posInf, .posInf => .nan
  | .posInf, .negInf => .nan
  | .negInf, .posInf => .nan
  | .negInf, .negInf => .nan

/-- safeDivide from timeUtils.ts over the JSNum model: fall back when
the denominator is 0 or not finite, divide, and fall back again when
the result is not finite. -/
def safeDivide (numerator denominator fallback : JSNum) : JSNum :=
  if denominator = .finite 0 ∨ denominator.isFinite = false then fallback
  else
    let result := numerator.div denominator
    if result.isFinite = false then fallback else result

-- ═══════════════════════════════════════════════════════════════════
-- Financial constants and cost functions (index.ts)
-- ═══════════════════════════════════════════════════════════════════

/-- The financial constants table from financial.types.ts. -/
structure FinancialConstants where
  fuelCostPerLiter : ℚ
  litersPerHourIdling : ℚ
  operatingDaysPerMonth : ℚ
  speedingInsuranceMultiplier : ℚ
  baseInsuranceCostPerVehicle : ℚ
deriving Repr

/-- Insurance risk multiplier from index.ts: clamp the risk score into
0..100, then interpolate linearly between 1 and the configured
speeding insurance multiplier. -/
def calculateInsuranceMultiplier
    (riskScore : ℚ) (financials : FinancialConstants) : ℚ :=
  let clampedScore := max 0 (min 100 riskScore)
  let excessMultiplier := financials.speedingInsuranceMultiplier - 1
  let riskFraction := clampedScore / 100
  1 + riskFraction * excessMultiplier

/-- Annual speeding risk cost from index.ts: zero for a nonpositive
risk score, otherwise the additional premium over the baseline. -/
def calculateSpeedingRiskCost
    (riskScore : ℚ) (financials : FinancialConstants) : ℚ :=
  if riskScore ≤ 0 then 0
  else
    financials.baseInsuranceCostPerVehicle *
      (calculateInsuranceMultiplier riskScore financials - 1)

-- ═══════════════════════════════════════════════════════════════════
-- Base metrics engine (baseMetrics.ts)
-- ═══════════════════════════════════════════════════════════════════

/-- Vehicle state at a point in time. -/
inductive VehicleState
  | moving
  | idle
  | off
deriving DecidableEq, Repr

/-- State classification from baseMetrics.ts: ignition off wins, then
speed below the idle threshold means idle, otherwise moving. -/
def classifyPointState
    (point : GPSTrackPoint) (config : AnalyticsConfig) : VehicleState :=
  if point.ignitionOn = false then .off
  else if point.speed < config.idleSpeedThresholdKmh then .idle
  else .moving

/-- A transition counts as a stop exactly when it leaves moving for
idle or off. -/
def isStopTransition
    (previousState currentState : VehicleState) : Bool :=
  previousState = VehicleState.moving ∧
    (currentState = VehicleState.idle ∨ currentState = VehicleState.off)

/-- A finalized long idle event. -/
structure IdleEvent where
  startTime : Timestamp
  endTime : Timestamp
  durationMinutes : ℚ
  location : GeoLocation
deriving DecidableEq, Repr

/-- Internal tracking for idle event detection. -/
structure IdleEventTracker where
  isInIdleState : Bool
  idleStartTime : Option Timestamp
  idleStartLocation : Option GeoLocation
  accumulatedIdleMinutes : ℚ
  idlePoints : List GPSTrackPoint
deriving Repr

/-- A fresh idle event tracker. -/
def createIdleTracker : IdleEventTracker :=
  { isInIdleState := false
    idleStartTime := none
    idleStartLocation := none
    accumulatedIdleMinutes := 0
    idlePoints := [] }

/-- Entering idle: record the entry timestamp and location, reset the
accumulated minutes and seed the sample list with the entry point. -/
def enterIdleState
    (tracker : IdleEventTracker) (point : GPSTrackPoint) : IdleEventTracker :=
  { tracker with
    isInIdleState := true
    idleStartTime := some point.timestamp
    idleStartLocation := some { lat := point.latitude, lng := point.longitude }
    accumulatedIdleMinutes := 0
    idlePoints := [point] }

/-- While idle: accumulate the segment duration and sample the segment
endpoint. -/
def accumulateIdleTime (tracker : IdleEventTracker)
    (point : GPSTrackPoint) (durationMinutes : ℚ) : IdleEventTracker :=
  { tracker with
    accumulatedIdleMinutes := tracker.accumulatedIdleMinutes + durationMinutes
    idlePoints := tracker.idlePoints ++ [point] }

/-- Centroid from geoCalculations.ts: none on an empty list, the point
itself for a singleton, and the spherical (3D unit vector) mean for two
or more points; the transcendental mean is the parameter. -/
def calculateCentroid (mean : List GPSTrackPoint → GeoLocation) :
    List GPSTrackPoint → Option GeoLocation
  | [] => none
  | [p] => some { lat := p.latitude, lng := p.longitude }
  | p :: q :: rest => some (mean (p :: q :: rest))

/-- Exiting idle: emit an event when the accumulated minutes meet the
threshold and a start time was recorded, locating it at the centroid of
the sampled points with the recorded start location and the origin as
fallbacks; always reset the tracker. -/
def exitIdleState (mean : List GPSTrackPoint → GeoLocation)
    (tracker : IdleEventTracker) (endTime : Timestamp)
    (longIdleThresholdMinutes : ℚ) : IdleEventTracker × Option IdleEvent :=
  let event : Option IdleEvent :=
    match tracker.idleStartTime with
    | none => none
    | some ts =>
        if longIdleThresholdMinutes ≤ tracker.accumulatedIdleMinutes then
          let centroid := calculateCentroid mean tracker.idlePoints
          let location : GeoLocation :=
            centroid.getD (tracker.idleStartLocation.getD { lat := 0, lng := 0 })
          some { startTime := ts
                 endTime := endTime
                 durationMinutes := tracker.accumulatedIdleMinutes
                 location := location }
        else none
  (createIdleTracker, event)

/-- Immutable snapshot of the base metrics for one vehicle and period. -/
structure BaseVehicleMetrics where
  vehicleId : String
  periodStart : Timestamp
  periodEnd : Timestamp
  totalDistanceKm : ℚ
  totalMovingTimeMinutes : ℚ
  totalIdleTimeMinutes : ℚ
  totalTimeMinutes : ℚ
  averageSpeedKmh : ℚ
  maxSpeedKmh : ℚ
  numberOfStops : ℕ
  longIdleEvents : List IdleEvent
  totalPointsAnalyzed : ℕ
deriving Repr

/-- Zeroed metrics record for empty tracks. -/
def createEmptyMetrics (vehicleId : String)
    (periodStart periodEnd : Timestamp)
    (totalTimeMinutes : ℚ) : BaseVehicleMetrics :=
  { vehicleId := vehicleId
    periodStart := periodStart
    periodEnd := periodEnd
    totalDistanceKm := 0
    totalMovingTimeMinutes := 0
    totalIdleTimeMinutes := 0
    totalTimeMinutes := totalTimeMinutes
    averageSpeedKmh := 0
    maxSpeedKmh := 0
    numberOfStops := 0
    longIdleEvents := []
    totalPointsAnalyzed := 0 }

/-- Accumulator for metrics during track iteration. -/
structure MetricsAccumulator where
  totalDistanceKm : ℚ
  totalMovingTimeMinutes : ℚ
  totalIdleTimeMinutes : ℚ
  maxSpeedKmh : ℚ
  numberOfStops : ℕ
  speedSamples : List ℚ
  longIdleEvents : List IdleEvent
deriving Repr

/-- The zero accumulator the loop starts from. -/
def initAccumulator : MetricsAccumulator :=
  { totalDistanceKm := 0
    totalMovingTimeMinutes := 0
    totalIdleTimeMinutes := 0
    maxSpeedKmh := 0
    numberOfStops := 0
    speedSamples := []
    longIdleEvents := [] }

/-- State carried across loop iterations: the accumulator and the idle
tracker. -/
abbrev LoopState := MetricsAccumulator × IdleEventTracker

/-- The per-point part of the loop body that does not look at the
previous point: track the max speed over ignition-on points and collect
speed samples at moving points. -/
def observePoint (config : AnalyticsConfig)
    (acc : MetricsAccumulator) (point : GPSTrackPoint) : MetricsAccumulator :=
  let acc1 :=
    if point.ignitionOn = true ∧ acc.maxSpeedKmh < point.speed then
      { acc with maxSpeedKmh := point.speed }
    else acc
  if classifyPointState point config = .moving then
    { acc1 with speedSamples := acc1.speedSamples ++ [point.speed] }
  else acc1

/-- The segment part of the loop body: attribute the segment duration
to the state of the previous point, add great-circle distance on moving
segments, feed idle segments into the tracker, and count a stop on a
moving-to-idle or moving-to-off transition. The source carries
previousState in a mutable variable; it always equals the
classification of the previous point, which is recomputed here. -/
def processSegment (dist : GPSTrackPoint → GPSTrackPoint → ℚ)
    (config : AnalyticsConfig) (acc : MetricsAccumulator)
    (tracker : IdleEventTracker)
    (prevPoint currentPoint : GPSTrackPoint) : LoopState :=
  let previousState := classifyPointState prevPoint config
  let segmentDuration := getPointDurationMinutes prevPoint currentPoint
  let st1 : LoopState :=
    match previousState with
    | .moving =>
        ({ acc with
            totalDistanceKm := acc.totalDistanceKm + dist prevPoint currentPoint
            totalMovingTimeMinutes :=
              acc.totalMovingTimeMinutes + segmentDuration }, tracker)
    | .idle =>
        ({ acc with
            totalIdleTimeMinutes := acc.totalIdleTimeMinutes + segmentDuration },
         accumulateIdleTime tracker currentPoint segmentDuration)
    | .off => (acc, tracker)
  if isStopTransition previousState (classifyPointState currentPoint config) then
    ({ st1.1 with numberOfStops := st1.1.numberOfStops + 1 }, st1.2)
  else st1

/-- The idle-transition part of the loop body: enter idle when the
current point is idle and the previous state was not, exit (and
possibly emit an event) when the current point is not idle and the
previous state was. The previous state is none at the first point. -/
def handleIdleTransition (mean : List GPSTrackPoint → GeoLocation)
    (config : AnalyticsConfig) (st : LoopState)
    (previousState : Option VehicleState)
    (point : GPSTrackPoint) : LoopState :=
  let currentState := classifyPointState point config
  if currentState = .idle ∧ previousState ≠ some .idle then
    (st.1, enterIdleState st.2 point)
  else if currentState ≠ .idle ∧ previousState = some .idle then
    let res := exitIdleState mean st.2 point.timestamp config.longIdleThresholdMinutes
    (match res.2 with
     | some e => { st.1 with longIdleEvents := st.1.longIdleEvents ++ [e] }
     | none => st.1,
     res.1)
  else st

/-- One loop iteration for an index i greater than zero. -/
def stepPoint (dist : GPSTrackPoint → GPSTrackPoint → ℚ)
    (mean : List GPSTrackPoint → GeoLocation) (config : AnalyticsConfig)
    (st : LoopState) (prevPoint currentPoint : GPSTrackPoint) : LoopState :=
  let acc := observePoint config st.1 currentPoint
  let st1 := processSegment dist config acc st.2 prevPoint currentPoint
  handleIdleTransition mean config st1
    (some (classifyPointState prevPoint config)) currentPoint

/-- The loop iteration for index zero: no segment to process and no
previous state. -/
def firstPoint (mean : List GPSTrackPoint → GeoLocation)
    (config : AnalyticsConfig) (point : GPSTrackPoint) : LoopState :=
  handleIdleTransition mean config
    (observePoint config initAccumulator point, createIdleTracker) none point

/-- The remaining loop iterations, walking consecutive pairs. -/
def runLoop (dist : GPSTrackPoint → GPSTrackPoint → ℚ)
    (mean : List GPSTrackPoint → GeoLocation) (config : AnalyticsConfig) :
    LoopState → GPSTrackPoint → List GPSTrackPoint → LoopState
  | st, _, [] => st
  | st, prev, c :: rest =>
      runLoop dist mean config (stepPoint dist mean config st prev c) c rest

/-- The post-loop step: when the track ends while still idle, finalize
the open event against the last point of the track. -/
def finalizeIdle (mean : List GPSTrackPoint → GeoLocation)
    (config : AnalyticsConfig) (st : LoopState)
    (lastPoint : GPSTrackPoint) : MetricsAccumulator :=
  if st.2.isInIdleState = true then
    match (exitIdleState mean st.2 lastPoint.timestamp
        config.longIdleThresholdMinutes).2 with
    | some e => { st.1 with longIdleEvents := st.1.longIdleEvents ++ [e] }
    | none => st.1
  else st.1

/-- computeBaseMetrics from baseMetrics.ts, parametrised over the
haversine distance and the spherical mean. -/
def computeBaseMetrics (dist : GPSTrackPoint → GPSTrackPoint → ℚ)
    (mean : List GPSTrackPoint → GeoLocation)
    (config : AnalyticsConfig) (track : GPSTrackResponse) : BaseVehicleMetrics :=
  let totalTimeMinutes := getDurationMinutes track.startTime track.endTime
  match track.points with
  | [] =>
      createEmptyMetrics track.vehicleId track.startTime track.endTime
        totalTimeMinutes
  | [singlePoint] =>
      { createEmptyMetrics track.vehicleId track.startTime track.endTime
          totalTimeMinutes with
        maxSpeedKmh := if singlePoint.ignitionOn then singlePoint.speed else 0
        totalPointsAnalyzed := 1 }
  | p :: q :: rest =>
      let st := runLoop dist mean config (firstPoint mean config p) p (q :: rest)
      let lastPoint := (q :: rest).getLast (List.cons_ne_nil q rest)
      let acc := finalizeIdle mean config st lastPoint
      let averageSpeedKmh :=
        safeDivideQ acc.totalDistanceKm (acc.totalMovingTimeMinutes / 60) 0
      { vehicleId := track.vehicleId
        periodStart := track.startTime
        periodEnd := track.endTime
        totalDistanceKm := acc.totalDistanceKm
        totalMovingTimeMinutes := acc.totalMovingTimeMinutes
        totalIdleTimeMinutes := acc.totalIdleTimeMinutes
        totalTimeMinutes := totalTimeMinutes
        averageSpeedKmh := averageSpeedKmh
        maxSpeedKmh := acc.maxSpeedKmh
        numberOfStops := acc.numberOfStops
        longIdleEvents := acc.longIdleEvents
        totalPointsAnalyzed := (p :: q :: rest).length }

-- ═══════════════════════════════════════════════════════════════════
-- Derived metrics and the two scorers
-- ═══════════════════════════════════════════════════════════════════

/-- Base metrics extended with the derived ratios and the two scores. -/
structure DerivedVehicleMetrics extends BaseVehicleMetrics where
  idleRatio : ℚ
  aggressiveDrivingRatio : ℚ
  timeOverSpeedThresholdMinutes : ℚ
  efficiencyScore : ℚ
  riskScore : ℚ
deriving Repr

/-- Weights of the efficiency score components. -/
structure EfficiencyWeights where
  idleRatio : ℚ
  utilizationRate : ℚ
  distanceEfficiency : ℚ
  stopEfficiency : ℚ
deriving Repr

/-- Weights of the risk score components. -/
structure RiskWeights where
  speedingRatio : ℚ
  longIdleFrequency : ℚ
  maxSpeedSeverity : ℚ
  erraticPattern : ℚ
deriving Repr

/-- Idle score component: one minus the idle ratio, times 100. -/
def calculateIdleScore (metrics : BaseVehicleMetrics) : ℚ :=
  let operationalTime :=
    metrics.totalIdleTimeMinutes + metrics.totalMovingTimeMinutes
  let idleRatio := safeDivideQ metrics.totalIdleTimeMinutes operationalTime 0
  clamp ((1 - idleRatio) * 100) 0 100

/-- Utilization score component: moving time over total time, times 100. -/
def calculateUtilizationScore (metrics : BaseVehicleMetrics) : ℚ :=
  let utilizationRate :=
    safeDivideQ metrics.totalMovingTimeMinutes metrics.totalTimeMinutes 0
  clamp (utilizationRate * 100) 0 100

/-- Distance score component: achieved km per hour of total time against
the expected baseline, capped at 100. -/
def calculateDistanceScore
    (metrics : BaseVehicleMetrics) (expectedKmPerHour : ℚ) : ℚ :=
  let totalHours := metrics.totalTimeMinutes / 60
  let kmPerHour := safeDivideQ metrics.totalDistanceKm totalHours 0
  let efficiencyRatio := safeDivideQ kmPerHour expectedKmPerHour 0
  clamp (efficiencyRatio * 100) 0 100

/-- Stop score component: penalize stops per km with a one-km floor on
the distance. -/
def calculateStopScore
    (metrics : BaseVehicleMetrics) (stopPenaltyFactor : ℚ) : ℚ :=
  let stopsPerKm :=
    safeDivideQ (metrics.numberOfStops : ℚ) (max 1 metrics.totalDistanceKm) 0
  clamp (100 - stopsPerKm * stopPenaltyFactor) 0 100

/-- Final weighted efficiency score with the safety-net clamp, zero on a
zero-duration period. -/
def calculateEfficiencyScore (metrics : BaseVehicleMetrics)
    (weights : EfficiencyWeights) (config : AnalyticsConfig) : ℚ :=
  if metrics.totalTimeMinutes = 0 then 0
  else
    let weightedScore :=
      calculateIdleScore metrics * weights.idleRatio +
      calculateUtilizationScore metrics * weights.utilizationRate +
      calculateDistanceScore metrics config.expectedKmPerHour *
        weights.distanceEfficiency +
      calculateStopScore metrics config.stopPenaltyFactor *
        weights.stopEfficiency
    clamp weightedScore 0 100

/-- Speeding score component: the aggressive driving ratio, times 100. -/
def calculateSpeedingScore (metrics : DerivedVehicleMetrics) : ℚ :=
  clamp (metrics.aggressiveDrivingRatio * 100) 0 100

/-- Long idle frequency score component: long idle events per day of
period, scaled by the idle risk factor. -/
def calculateLongIdleFrequencyScore
    (metrics : DerivedVehicleMetrics) (idleRiskFactor : ℚ) : ℚ :=
  let totalDays := safeDivideQ metrics.totalTimeMinutes 1440 1
  let longIdlesPerDay :=
    safeDivideQ (metrics.longIdleEvents.length : ℚ) (max 1 totalDays) 0
  clamp (longIdlesPerDay * idleRiskFactor) 0 100

/-- Max speed severity score component: the excess of the max speed over
the speeding threshold against a fixed 40 km/h reference. -/
def calculateMaxSpeedSeverityScore
    (metrics : DerivedVehicleMetrics) (speedingThresholdKmh : ℚ) : ℚ :=
  let speedExcess := max 0 (metrics.maxSpeedKmh - speedingThresholdKmh)
  let severityRatio := safeDivideQ speedExcess 40 0
  clamp (severityRatio * 100) 0 100

/-- Erratic pattern score component: the max over average speed ratio
mapped so that 1 gives 0 and 2 gives 100, with the special case of a
zero average speed. -/
def calculateErraticPatternScore (metrics : DerivedVehicleMetrics) : ℚ :=
  if metrics.averageSpeedKmh = 0 then
    (if 0 < metrics.maxSpeedKmh then 50 else 0)
  else
    let speedRatio := safeDivideQ metrics.maxSpeedKmh metrics.averageSpeedKmh 1
    clamp ((speedRatio - 1) * 100) 0 100

/-- Final weighted risk score with the safety-net clamp, zero on a
zero-duration period. -/
def calculateRiskScore (metrics : DerivedVehicleMetrics)
    (weights : RiskWeights) (config : AnalyticsConfig) : ℚ :=
  if metrics.totalTimeMinutes = 0 then 0
  else
    let weightedScore :=
      calculateSpeedingScore metrics * weights.speedingRatio +
      calculateLongIdleFrequencyScore metrics config.idleRiskFactor *
        weights.longIdleFrequency +
      calculateMaxSpeedSeverityScore metrics config.speedingThresholdKmh *
        weights.maxSpeedSeverity +
      calculateErraticPatternScore metrics * weights.erraticPattern
    clamp weightedScore 0 100

-- ═══════════════════════════════════════════════════════════════════
-- Fleet rankings (fleet aggregator)
-- ═══════════════════════════════════════════════════════════════════

/-- A sortable ranking entry: vehicleId and score. -/
structure RankEntry where
  vehicleId : String
  score : ℚ
deriving DecidableEq, Repr

/-- A ranking row of the fleet aggregator. -/
structure VehicleRanking where
  vehicleId : String
  vehicleName : String
  score : ℚ
  rank : ℕ
deriving DecidableEq, Repr

/-- The order induced by compareByScoreDesc: an entry precedes another
when its score is strictly larger, or on an exact score tie when its
vehicleId is not larger. The source sorts with a stable comparator
sort; because two entries the comparator ties are equal records, any
sort agreeing with this order produces the same list. -/
def rankOrder (a b : RankEntry) : Prop :=
  b.score < a.score ∨ (a.score = b.score ∧ a.vehicleId ≤ b.vehicleId)

instance : DecidableRel rankOrder := fun a b => by
  unfold rankOrder; infer_instance

instance : IsTotal RankEntry rankOrder := by
  constructor
  intro a b
  rcases lt_trichotomy a.score b.score with h | h | h
  · exact Or.inr (Or.inl h)
  · rcases le_total a.vehicleId b.vehicleId with hv | hv
    · exact Or.inl (Or.inr ⟨h, hv⟩)
    · exact Or.inr (Or.inr ⟨h.symm, hv⟩)
  · exact Or.inl (Or.inl h)

instance : IsTrans RankEntry rankOrder := by
  constructor
  intro a b c hab hbc
  rcases hab with h1 | ⟨h1, hv1⟩
  · rcases hbc with h2 | ⟨h2, _⟩
    · exact Or.inl (h2.trans h1)
    · exact Or.inl (h2 ▸ h1)
  · rcases hbc with h2 | ⟨h2, hv2⟩
    · exact Or.inl (h1 ▸ h2)
    · exact Or.inr ⟨h1.trans h2, hv1.trans hv2⟩

instance : IsAntisymm RankEntry rankOrder := by
  constructor
  intro a b hab hba
  rcases hab with h1 | ⟨h1, hv1⟩
  · rcases hba with h2 | ⟨h2, _⟩
    · exact absurd (h1.trans h2) (lt_irrefl _)
    · exact absurd h1 (h2 ▸ lt_irrefl _)
  · rcases hba with h2 | ⟨h2, hv2⟩
    · exact absurd h2 (h1 ▸ lt_irrefl _)
    · cases a; cases b
      simp only [RankEntry.mk.injEq]
      exact ⟨le_antisymm hv1 hv2, h1⟩

/-- Sorting by the comparator. -/
def sortEntries (entries : List RankEntry) : List RankEntry :=
  List.insertionSort rankOrder entries

/-- Assign dense sequential ranks starting from a given rank; the
source maps with the array index plus one, starting at one. -/
def assignRanks : ℕ → List RankEntry → List VehicleRanking
  | _, [] => []
  | r, e :: rest =>
      { vehicleId := e.vehicleId
        vehicleName := e.vehicleId
        score := e.score
        rank := r } :: assignRanks (r + 1) rest

/-- rankByEfficiency from the fleet aggregator: map metrics to entries
keyed by efficiencyScore, sort, and assign sequential ranks. -/
def rankByEfficiency (metrics : List DerivedVehicleMetrics) : List VehicleRanking :=
  match metrics with
  | [] => []
  | _ =>
      assignRanks 1
        (sortEntries (metrics.map fun m =>
          { vehicleId := m.vehicleId, score := m.efficiencyScore }))

/-- rankByRisk from the fleet aggregator: as rankByEfficiency but keyed
by riskScore. -/
def rankByRisk (metrics : List DerivedVehicleMetrics) : List VehicleRanking :=
  match metrics with
  | [] => []
  | _ =>
      assignRanks 1
        (sortEntries (metrics.map fun m =>
          { vehicleId := m.vehicleId, score := m.riskScore }))

-- ═══════════════════════════════════════════════════════════════════
-- Shared small lemmas
-- ═══════════════════════════════════════════════════════════════════

lemma clamp_mem (v low high : ℚ) (hlh : low ≤ high) :
    low ≤ clamp v low high ∧ clamp v low high ≤ high :=
  ⟨le_min (le_max_right _ _) hlh, min_le_right _ _⟩

lemma clamp_eq_maxmin (r : ℚ) : clamp r 0 100 = max 0 (min 100 r) := by
  unfold clamp
  rw [max_comm r 0, min_comm 100 r, max_min_distrib_left]
  norm_num

-- ═══════════════════════════════════════════════════════════════════
-- C2: score bounds
-- ═══════════════════════════════════════════════════════════════════

/-- C2: for every base metrics input, weights and config the efficiency
score lies in the interval from 0 to 100, and likewise for every
derived metrics input, weights and config the risk score lies in the
interval from 0 to 100, even when the weights are misconfigured and the
metric values adversarial. -/
theorem efficiency_and_risk_scores_bounded
    (baseM : BaseVehicleMetrics) (wEff : EfficiencyWeights)
    (derivedM : DerivedVehicleMetrics) (wRisk : RiskWeights)
    (config : AnalyticsConfig) :
    (0 ≤ calculateEfficiencyScore baseM wEff config ∧
      calculateEfficiencyScore baseM wEff config ≤ 100) ∧
    (0 ≤ calculateRiskScore derivedM wRisk config ∧
      calculateRiskScore derivedM wRisk config ≤ 100) := by
  constructor
  · unfold calculateEfficiencyScore
    split
    · norm_num
    · exact clamp_mem _ 0 100 (by norm_num)
  · unfold calculateRiskScore
    split
    · norm_num
    · exact clamp_mem _ 0 100 (by norm_num)

-- ═══════════════════════════════════════════════════════════════════
-- C6: insurance multiplier and speeding risk cost
-- ═══════════════════════════════════════════════════════════════════

/-- Financial constants used by the worked example of the spec. -/
def exampleFinancials : FinancialConstants :=
  { fuelCostPerLiter := 37/20
    litersPerHourIdling := 5/2
    operatingDaysPerMonth := 22
    speedingInsuranceMultiplier := 23/20
    baseInsuranceCostPerVehicle := 2400 }

/-- C6: the insurance multiplier is the linear interpolation
1 + clamp(r,0,100)/100 times the excess multiplier; the speeding risk
cost is the additional premium base times multiplier minus one for a
positive risk score and zero for a nonpositive one; and the worked
example with risk 50, multiplier 23/20 and base 2400 yields 180. -/
theorem insurance_multiplier_and_speeding_cost
    (r : ℚ) (fc : FinancialConstants) :
    calculateInsuranceMultiplier r fc =
      1 + clamp r 0 100 / 100 * (fc.speedingInsuranceMultiplier - 1) ∧
    (0 < r → calculateSpeedingRiskCost r fc =
      fc.baseInsuranceCostPerVehicle *
        (calculateInsuranceMultiplier r fc - 1)) ∧
    (r ≤ 0 → calculateSpeedingRiskCost r fc = 0) ∧
    calculateSpeedingRiskCost 50 exampleFinancials = 180 := by
  refine ⟨?_, ?_, ?_, ?_⟩
  · unfold calculateInsuranceMultiplier
    rw [clamp_eq_maxmin]
  · intro h
    unfold calculateSpeedingRiskCost
    rw [if_neg (not_le.mpr h)]
  · intro h
    unfold calculateSpeedingRiskCost
    rw [if_pos h]
  · norm_num [calculateSpeedingRiskCost, calculateInsuranceMultiplier,
      exampleFinancials]

/-- Witness for C6 at risk scores 50 and minus 1. -/
theorem insurance_multiplier_and_speeding_cost_witness :
    calculateSpeedingRiskCost 50 exampleFinancials =
      exampleFinancials.baseInsuranceCostPerVehicle *
        (calculateInsuranceMultiplier 50 exampleFinancials - 1) ∧
    calculateSpeedingRiskCost (-1) exampleFinancials = 0 :=
  ⟨(insurance_multiplier_and_speeding_cost 50 exampleFinancials).2.1
      (by norm_num),
   (insurance_multiplier_and_speeding_cost (-1) exampleFinancials).2.2.1
      (by norm_num)⟩

-- ═══════════════════════════════════════════════════════════════════
-- C7: safeDivide over the JS number model
-- ═══════════════════════════════════════════════════════════════════

/-- C7: safeDivide returns the fallback whenever the denominator is 0
or not finite, or the quotient would not be finite; it returns the
exact quotient for finite numerator and finite nonzero denominator;
and its result is finite whenever the fallback is finite, so it never
returns NaN or Infinity then. -/
theorem safeDivide_spec (n d f : JSNum) :
    ((d = .finite 0 ∨ d.isFinite = false) → safeDivide n d f = f) ∧
    (∀ qd : ℚ, d = .finite qd → qd ≠ 0 →
      ((n.isFinite = false → safeDivide n d f = f) ∧
       (∀ qn : ℚ, n = .finite qn → safeDivide n d f = .finite (qn / qd)))) ∧
    (f.isFinite = true → (safeDivide n d f).isFinite = true) := by
  refine ⟨?_, ?_, ?_⟩
  · intro h
    unfold safeDivide
    rw [if_pos h]
  · intro qd hd hqd
    subst hd
    have hcond : ¬((JSNum.finite qd) = .finite 0 ∨
        (JSNum.finite qd).isFinite = false) := by
      simp [JSNum.isFinite, hqd]
    constructor
    · intro hn
      unfold safeDivide
      rw [if_neg hcond]
      cases n with
      | finite q => simp [JSNum.isFinite] at hn
      | posInf =>
          simp only [JSNum.div]
          split <;> simp [JSNum.isFinite]
      | negInf =>
          simp only [JSNum.div]
          split <;> simp [JSNum.isFinite]
      | nan => simp [JSNum.div, JSNum.isFinite]
    · intro qn hn
      subst hn
      unfold safeDivide
      rw [if_neg hcond]
      simp [JSNum.div, hqd, JSNum.isFinite]
  · intro hf
    unfold safeDivide
    split
    · exact hf
    · show (if (n.div d).isFinite = false then f else n.div d).isFinite = true
      by_cases hr : (n.div d).isFinite = false
      · rw [if_pos hr]; exact hf
      · rw [if_neg hr]; simpa using hr

/-- Witness for C7: an exact quotient and a zero-denominator fallback. -/
theorem safeDivide_spec_witness :
    safeDivide (.finite 3) (.finite 2) (.finite 0) = .finite (3 / 2) ∧
    safeDivide .nan (.finite 0) (.finite 0) = .finite 0 :=
  ⟨((safeDivide_spec (.finite 3) (.finite 2) (.finite 0)).2.1 2 rfl
      (by norm_num)).2 3 rfl,
   (safeDivide_spec .nan (.finite 0) (.finite 0)).1 (Or.inl rfl)⟩

-- ═══════════════════════════════════════════════════════════════════
-- C3: ranking determinism
-- ═══════════════════════════════════════════════════════════════════

/-- The sortable entry of a ranking row. -/
def entryOfRanking (v : VehicleRanking) : RankEntry :=
  { vehicleId := v.vehicleId, score := v.score }

/-- The efficiency entry of a metrics record. -/
def efficiencyEntry (m : DerivedVehicleMetrics) : RankEntry :=
  { vehicleId := m.vehicleId, score := m.efficiencyScore }

/-- The risk entry of a metrics record. -/
def riskEntry (m : DerivedVehicleMetrics) : RankEntry :=
  { vehicleId := m.vehicleId, score := m.riskScore }

lemma assignRanks_map_entry :
    ∀ (k : ℕ) (l : List RankEntry),
      (assignRanks k l).map entryOfRanking = l := by
  intro k l
  induction l generalizing k with
  | nil => rfl
  | cons e rest ih =>
      simp only [assignRanks, List.map_cons, ih]
      congr 1

lemma assignRanks_map_rank :
    ∀ (k : ℕ) (l : List RankEntry),
      (assignRanks k l).map (fun v => v.rank) = List.range' k l.length := by
  intro k l
  induction l generalizing k with
  | nil => rfl
  | cons e rest ih =>
      simp only [assignRanks, List.map_cons, ih, List.length_cons,
        List.range'_succ]

lemma assignRanks_length (k : ℕ) (l : List RankEntry) :
    (assignRanks k l).length = l.length := by
  have := congrArg List.length (assignRanks_map_entry k l)
  simpa using this

lemma rankByEfficiency_eq (ms : List DerivedVehicleMetrics) :
    rankByEfficiency ms = assignRanks 1 (sortEntries (ms.map efficiencyEntry)) := by
  cases ms <;> rfl

lemma rankByRisk_eq (ms : List DerivedVehicleMetrics) :
    rankByRisk ms = assignRanks 1 (sortEntries (ms.map riskEntry)) := by
  cases ms <;> rfl

lemma sortEntries_perm (es : List RankEntry) : (sortEntries es).Perm es :=
  List.perm_insertionSort rankOrder es

lemma sortEntries_sorted (es : List RankEntry) :
    (sortEntries es).Sorted rankOrder :=
  List.sorted_insertionSort rankOrder es

lemma sortEntries_congr {es es' : List RankEntry} (h : es.Perm es') :
    sortEntries es = sortEntries es' :=
  List.eq_of_perm_of_sorted
    ((sortEntries_perm es).trans (h.trans (sortEntries_perm es').symm))
    (sortEntries_sorted es) (sortEntries_sorted es')

/-- C3: each ranking contains exactly one entry per input vehicle (the
entries are a permutation of the input entries and the length is
preserved), is sorted by score descending with exact ties broken by
vehicleId ascending, is independent of the input order, and carries the
dense rank sequence 1..N; both for efficiency and for risk. -/
theorem ranking_deterministic_dense
    (ms msPerm : List DerivedVehicleMetrics) (hperm : ms.Perm msPerm) :
    (((rankByEfficiency ms).map entryOfRanking).Perm (ms.map efficiencyEntry) ∧
      (rankByEfficiency ms).length = ms.length ∧
      ((rankByEfficiency ms).map entryOfRanking).Sorted rankOrder ∧
      rankByEfficiency ms = rankByEfficiency msPerm ∧
      (rankByEfficiency ms).map (fun v => v.rank) =
        List.range' 1 ms.length) ∧
    (((rankByRisk ms).map entryOfRanking).Perm (ms.map riskEntry) ∧
      (rankByRisk ms).length = ms.length ∧
      ((rankByRisk ms).map entryOfRanking).Sorted rankOrder ∧
      rankByRisk ms = rankByRisk msPerm ∧
      (rankByRisk ms).map (fun v => v.rank) = List.range' 1 ms.length) := by
  constructor
  · rw [rankByEfficiency_eq, rankByEfficiency_eq msPerm,
      assignRanks_map_entry, assignRanks_map_rank, assignRanks_length]
    refine ⟨(sortEntries_perm _), ?_, sortEntries_sorted _,
      ?_, ?_⟩
    · rw [(sortEntries_perm _).length_eq, List.length_map]
    · rw [sortEntries_congr (hperm.map efficiencyEntry)]
    · rw [(sortEntries_perm _).length_eq, List.length_map]
  · rw [rankByRisk_eq, rankByRisk_eq msPerm,
      assignRanks_map_entry, assignRanks_map_rank, assignRanks_length]
    refine ⟨(sortEntries_perm _), ?_, sortEntries_sorted _,
      ?_, ?_⟩
    · rw [(sortEntries_perm _).length_eq, List.length_map]
    · rw [sortEntries_congr (hperm.map riskEntry)]
    · rw [(sortEntries_perm _).length_eq, List.length_map]

/-- A minimal derived metrics record used by concrete witnesses. -/
def plainDerivedMetrics (id : String) (eff risk : ℚ) : DerivedVehicleMetrics :=
  { vehicleId := id
    periodStart := some 0
    periodEnd := some 0
    totalDistanceKm := 0
    totalMovingTimeMinutes := 0
    totalIdleTimeMinutes := 0
    totalTimeMinutes := 0
    averageSpeedKmh := 0
    maxSpeedKmh := 0
    numberOfStops := 0
    longIdleEvents := []
    totalPointsAnalyzed := 0
    idleRatio := 0
    aggressiveDrivingRatio := 0
    timeOverSpeedThresholdMinutes := 0
    efficiencyScore := eff
    riskScore := risk }

/-- Witness for C3 on a concrete two-vehicle fleet given in both
orders. -/
theorem ranking_deterministic_dense_witness :
    rankByEfficiency
        [plainDerivedMetrics "a" 30 10, plainDerivedMetrics "b" 70 20] =
      rankByEfficiency
        [plainDerivedMetrics "b" 70 20, plainDerivedMetrics "a" 30 10] ∧
    (rankByEfficiency
        [plainDerivedMetrics "a" 30 10, plainDerivedMetrics "b" 70 20]).map
        (fun v => v.rank) = [1, 2] :=
  ⟨(ranking_deterministic_dense
      [plainDerivedMetrics "a" 30 10, plainDerivedMetrics "b" 70 20]
      [plainDerivedMetrics "b" 70 20, plainDerivedMetrics "a" 30 10]
      (List.Perm.swap _ _ _)).1.2.2.2.1,
   (ranking_deterministic_dense
      [plainDerivedMetrics "a" 30 10, plainDerivedMetrics "b" 70 20]
      [plainDerivedMetrics "b" 70 20, plainDerivedMetrics "a" 30 10]
      (List.Perm.swap _ _ _)).1.2.2.2.2⟩

-- ═══════════════════════════════════════════════════════════════════
-- Spec-level segment sums over consecutive pairs
-- ═══════════════════════════════════════════════════════════════════

/-- Parse value of a point timestamp, with 0 for unparseable ones; only
used under a parseability hypothesis. -/
def ptTime (p : GPSTrackPoint) : ℚ := p.timestamp.getD 0

/-- Sum of the durations of the consecutive-pair segments of a list. -/
def consecutiveDurationSum : List GPSTrackPoint → ℚ
  | [] => 0
  | [_] => 0
  | p :: q :: rest => getPointDurationMinutes p q + consecutiveDurationSum (q :: rest)

/-- Sum of the durations of the segments whose earlier point classifies
as the given state, walking consecutive pairs from a previous point. -/
def stateSegmentSum (config : AnalyticsConfig) (s : VehicleState) :
    GPSTrackPoint → List GPSTrackPoint → ℚ
  | _, [] => 0
  | prev, c :: rest =>
      (if classifyPointState prev config = s
        then getPointDurationMinutes prev c else 0) +
      stateSegmentSum config s c rest

/-- The off time computeBaseMetrics drops: the total duration of the
segments whose earlier point classifies as off. -/
def droppedOffTime (config : AnalyticsConfig) : List GPSTrackPoint → ℚ
  | [] => 0
  | p :: rest => stateSegmentSum config .off p rest

/-- Number of consecutive point pairs whose earlier point classifies as
moving and whose later point classifies as idle or off, walking pairs
from a previous point. -/
def stopPairCountFrom (config : AnalyticsConfig) :
    GPSTrackPoint → List GPSTrackPoint → ℕ
  | _, [] => 0
  | prev, c :: rest =>
      (if classifyPointState prev config = .moving ∧
          (classifyPointState c config = .idle ∨
            classifyPointState c config = .off)
        then 1 else 0) +
      stopPairCountFrom config c rest

/-- Number of stop transitions over the consecutive pairs of a list. -/
def stopPairCount (config : AnalyticsConfig) : List GPSTrackPoint → ℕ
  | [] => 0
  | p :: rest => stopPairCountFrom config p rest

-- ═══════════════════════════════════════════════════════════════════
-- Effect lemmas for the loop body
-- ═══════════════════════════════════════════════════════════════════

lemma getDurationMinutes_nonneg (s e : Timestamp) :
    0 ≤ getDurationMinutes s e := by
  unfold getDurationMinutes
  cases s with
  | none => cases e <;> norm_num
  | some a =>
      cases e with
      | none => norm_num
      | some b =>
          dsimp only
          split
          · norm_num
          · rename_i h
            push_neg at h
            positivity

lemma getPointDurationMinutes_nonneg (p q : GPSTrackPoint) :
    0 ≤ getPointDurationMinutes p q :=
  getDurationMinutes_nonneg _ _

lemma observePoint_fields (config : AnalyticsConfig)
    (acc : MetricsAccumulator) (point : GPSTrackPoint) :
    (observePoint config acc point).totalDistanceKm = acc.totalDistanceKm ∧
    (observePoint config acc point).totalMovingTimeMinutes =
      acc.totalMovingTimeMinutes ∧
    (observePoint config acc point).totalIdleTimeMinutes =
      acc.totalIdleTimeMinutes ∧
    (observePoint config acc point).numberOfStops = acc.numberOfStops ∧
    (observePoint config acc point).longIdleEvents = acc.longIdleEvents := by
  unfold observePoint
  dsimp only
  split <;> split <;> exact ⟨rfl, rfl, rfl, rfl, rfl⟩

lemma observePoint_maxSpeed (config : AnalyticsConfig)
    (acc : MetricsAccumulator) (point : GPSTrackPoint) :
    (observePoint config acc point).maxSpeedKmh =
      if point.ignitionOn = true ∧ acc.maxSpeedKmh < point.speed
        then point.speed else acc.maxSpeedKmh := by
  unfold observePoint
  dsimp only
  split <;> split <;> simp_all

lemma observePoint_maxSpeed_nonneg (config : AnalyticsConfig)
    (acc : MetricsAccumulator) (point : GPSTrackPoint)
    (h : 0 ≤ acc.maxSpeedKmh) :
    0 ≤ (observePoint config acc point).maxSpeedKmh := by
  rw [observePoint_maxSpeed]
  split
  · rename_i hc
    exact le_of_lt (lt_of_le_of_lt h hc.2)
  · exact h

lemma processSegment_spec (dist : GPSTrackPoint → GPSTrackPoint → ℚ)
    (config : AnalyticsConfig) (acc : MetricsAccumulator)
    (tracker : IdleEventTracker) (prevPoint currentPoint : GPSTrackPoint) :
    (processSegment dist config acc tracker prevPoint currentPoint).1.totalDistanceKm =
      acc.totalDistanceKm +
        (if classifyPointState prevPoint config = .moving
          then dist prevPoint currentPoint else 0) ∧
    (processSegment dist config acc tracker prevPoint currentPoint).1.totalMovingTimeMinutes =
      acc.totalMovingTimeMinutes +
        (if classifyPointState prevPoint config = .moving
          then getPointDurationMinutes prevPoint currentPoint else 0) ∧
    (processSegment dist config acc tracker prevPoint currentPoint).1.totalIdleTimeMinutes =
      acc.totalIdleTimeMinutes +
        (if classifyPointState prevPoint config = .idle
          then getPointDurationMinutes prevPoint currentPoint else 0) ∧
    (processSegment dist config acc tracker prevPoint currentPoint).1.maxSpeedKmh =
      acc.maxSpeedKmh ∧
    (processSegment dist config acc tracker prevPoint currentPoint).1.numberOfStops =
      acc.numberOfStops +
        (if classifyPointState prevPoint config = .moving ∧
            (classifyPointState currentPoint config = .idle ∨
              classifyPointState currentPoint config = .off)
          then 1 else 0) ∧
    (processSegment dist config acc tracker prevPoint currentPoint).1.longIdleEvents =
      acc.longIdleEvents ∧
    (processSegment dist config acc tracker prevPoint currentPoint).2 =
      (if classifyPointState prevPoint config = .idle
        then accumulateIdleTime tracker currentPoint
          (getPointDurationMinutes prevPoint currentPoint)
        else tracker) := by
  unfold processSegment isStopTransition
  dsimp only
  rcases hprev : classifyPointState prevPoint config <;>
    rcases hcurr : classifyPointState currentPoint config <;>
      simp [hprev, hcurr]

lemma handleIdleTransition_acc (mean : List GPSTrackPoint → GeoLocation)
    (config : AnalyticsConfig) (st : LoopState)
    (previousState : Option VehicleState) (point : GPSTrackPoint) :
    (handleIdleTransition mean config st previousState point).1.totalDistanceKm =
      st.1.totalDistanceKm ∧
    (handleIdleTransition mean config st previousState point).1.totalMovingTimeMinutes =
      st.1.totalMovingTimeMinutes ∧
    (handleIdleTransition mean config st previousState point).1.totalIdleTimeMinutes =
      st.1.totalIdleTimeMinutes ∧
    (handleIdleTransition mean config st previousState point).1.maxSpeedKmh =
      st.1.maxSpeedKmh ∧
    (handleIdleTransition mean config st previousState point).1.numberOfStops =
      st.1.numberOfStops := by
  unfold handleIdleTransition
  dsimp only
  split
  · exact ⟨rfl, rfl, rfl, rfl, rfl⟩
  · split
    · split <;> exact ⟨rfl, rfl, rfl, rfl, rfl⟩
    · exact ⟨rfl, rfl, rfl, rfl, rfl⟩

lemma stepPoint_acc (dist : GPSTrackPoint → GPSTrackPoint → ℚ)
    (mean : List GPSTrackPoint → GeoLocation) (config : AnalyticsConfig)
    (st : LoopState) (prevPoint currentPoint : GPSTrackPoint) :
    (stepPoint dist mean config st prevPoint currentPoint).1.totalDistanceKm =
      st.1.totalDistanceKm +
        (if classifyPointState prevPoint config = .moving
          then dist prevPoint currentPoint else 0) ∧
    (stepPoint dist mean config st prevPoint currentPoint).1.totalMovingTimeMinutes =
      st.1.totalMovingTimeMinutes +
        (if classifyPointState prevPoint config = .moving
          then getPointDurationMinutes prevPoint currentPoint else 0) ∧
    (stepPoint dist mean config st prevPoint currentPoint).1.totalIdleTimeMinutes =
      st.1.totalIdleTimeMinutes +
        (if classifyPointState prevPoint config = .idle
          then getPointDurationMinutes prevPoint currentPoint else 0) ∧
    (stepPoint dist mean config st prevPoint currentPoint).1.numberOfStops =
      st.1.numberOfStops +
        (if classifyPointState prevPoint config = .moving ∧
            (classifyPointState currentPoint config = .idle ∨
              classifyPointState currentPoint config = .off)
          then 1 else 0) := by
  unfold stepPoint
  dsimp only
  obtain ⟨hA1, hA2, hA3, hA4, hA5⟩ :=
    handleIdleTransition_acc mean config
      (processSegment dist config (observePoint config st.1 currentPoint) st.2
        prevPoint currentPoint)
      (some (classifyPointState prevPoint config)) currentPoint
  obtain ⟨hP1, hP2, hP3, _, hP5, _, _⟩ :=
    processSegment_spec dist config (observePoint config st.1 currentPoint)
      st.2 prevPoint currentPoint
  obtain ⟨hO1, hO2, hO3, hO4, _⟩ := observePoint_fields config st.1 currentPoint
  refine ⟨?_, ?_, ?_, ?_⟩
  · rw [hA1, hP1, hO1]
  · rw [hA2, hP2, hO2]
  · rw [hA3, hP3, hO3]
  · rw [hA5, hP5, hO4]

lemma finalizeIdle_acc (mean : List GPSTrackPoint → GeoLocation)
    (config : AnalyticsConfig) (st : LoopState) (lastPoint : GPSTrackPoint) :
    (finalizeIdle mean config st lastPoint).totalDistanceKm =
      st.1.totalDistanceKm ∧
    (finalizeIdle mean config st lastPoint).totalMovingTimeMinutes =
      st.1.totalMovingTimeMinutes ∧
    (finalizeIdle mean config st lastPoint).totalIdleTimeMinutes =
      st.1.totalIdleTimeMinutes ∧
    (finalizeIdle mean config st lastPoint).maxSpeedKmh = st.1.maxSpeedKmh ∧
    (finalizeIdle mean config st lastPoint).numberOfStops =
      st.1.numberOfStops := by
  unfold finalizeIdle
  split
  · split <;> exact ⟨rfl, rfl, rfl, rfl, rfl⟩
  · exact ⟨rfl, rfl, rfl, rfl, rfl⟩

lemma runLoop_acc (dist : GPSTrackPoint → GPSTrackPoint → ℚ)
    (mean : List GPSTrackPoint → GeoLocation) (config : AnalyticsConfig) :
    ∀ (l : List GPSTrackPoint) (st : LoopState) (prev : GPSTrackPoint),
    (runLoop dist mean config st prev l).1.totalMovingTimeMinutes =
      st.1.totalMovingTimeMinutes + stateSegmentSum config .moving prev l ∧
    (runLoop dist mean config st prev l).1.totalIdleTimeMinutes =
      st.1.totalIdleTimeMinutes + stateSegmentSum config .idle prev l ∧
    (runLoop dist mean config st prev l).1.numberOfStops =
      st.1.numberOfStops + stopPairCountFrom config prev l := by
  intro l
  induction l with
  | nil =>
      intro st prev
      simp [runLoop, stateSegmentSum, stopPairCountFrom]
  | cons c rest ih =>
      intro st prev
      obtain ⟨ih1, ih2, ih3⟩ :=
        ih (stepPoint dist mean config st prev c) c
      obtain ⟨_, hS2, hS3, hS4⟩ := stepPoint_acc dist mean config st prev c
      refine ⟨?_, ?_, ?_⟩
      · rw [runLoop, ih1, hS2, stateSegmentSum]
        ring
      · rw [runLoop, ih2, hS3, stateSegmentSum]
        ring
      · rw [runLoop, ih3, hS4, stopPairCountFrom]
        omega

lemma firstPoint_acc (mean : List GPSTrackPoint → GeoLocation)
    (config : AnalyticsConfig) (point : GPSTrackPoint) :
    (firstPoint mean config point).1.totalDistanceKm = 0 ∧
    (firstPoint mean config point).1.totalMovingTimeMinutes = 0 ∧
    (firstPoint mean config point).1.totalIdleTimeMinutes = 0 ∧
    (firstPoint mean config point).1.numberOfStops = 0 := by
  unfold firstPoint
  obtain ⟨hA1, hA2, hA3, _, hA5⟩ :=
    handleIdleTransition_acc mean config
      (observePoint config initAccumulator point, createIdleTracker) none point
  obtain ⟨hO1, hO2, hO3, hO4, _⟩ :=
    observePoint_fields config initAccumulator point
  exact ⟨by rw [hA1]; exact hO1, by rw [hA2]; exact hO2,
    by rw [hA3]; exact hO3, by rw [hA5]; exact hO4⟩

lemma computeBaseMetrics_cons (dist : GPSTrackPoint → GPSTrackPoint → ℚ)
    (mean : List GPSTrackPoint → GeoLocation) (config : AnalyticsConfig)
    (vid : String) (stT enT : Timestamp) (p q : GPSTrackPoint)
    (rest : List GPSTrackPoint) :
    computeBaseMetrics dist mean config
        { vehicleId := vid, startTime := stT, endTime := enT,
          points := p :: q :: rest } =
      { vehicleId := vid
        periodStart := stT
        periodEnd := enT
        totalDistanceKm :=
          (finalizeIdle mean config
            (runLoop dist mean config (firstPoint mean config p) p (q :: rest))
            ((q :: rest).getLast (List.cons_ne_nil q rest))).totalDistanceKm
        totalMovingTimeMinutes :=
          (finalizeIdle mean config
            (runLoop dist mean config (firstPoint mean config p) p (q :: rest))
            ((q :: rest).getLast (List.cons_ne_nil q rest))).totalMovingTimeMinutes
        totalIdleTimeMinutes :=
          (finalizeIdle mean config
            (runLoop dist mean config (firstPoint mean config p) p (q :: rest))
            ((q :: rest).getLast (List.cons_ne_nil q rest))).totalIdleTimeMinutes
        totalTimeMinutes := getDurationMinutes stT enT
        averageSpeedKmh :=
          safeDivideQ
            (finalizeIdle mean config
              (runLoop dist mean config (firstPoint mean config p) p (q :: rest))
              ((q :: rest).getLast (List.cons_ne_nil q rest))).totalDistanceKm
            ((finalizeIdle mean config
              (runLoop dist mean config (firstPoint mean config p) p (q :: rest))
              ((q :: rest).getLast (List.cons_ne_nil q rest))).totalMovingTimeMinutes
              / 60) 0
        maxSpeedKmh :=
          (finalizeIdle mean config
            (runLoop dist mean config (firstPoint mean config p) p (q :: rest))
            ((q :: rest).getLast (List.cons_ne_nil q rest))).maxSpeedKmh
        numberOfStops :=
          (finalizeIdle mean config
            (runLoop dist mean config (firstPoint mean config p) p (q :: rest))
            ((q :: rest).getLast (List.cons_ne_nil q rest))).numberOfStops
        longIdleEvents :=
          (finalizeIdle mean config
            (runLoop dist mean config (firstPoint mean config p) p (q :: rest))
            ((q :: rest).getLast (List.cons_ne_nil q rest))).longIdleEvents
        totalPointsAnalyzed := (p :: q :: rest).length } := rfl

lemma threeState_sum (config : AnalyticsConfig) :
    ∀ (l : List GPSTrackPoint) (prev : GPSTrackPoint),
    stateSegmentSum config .moving prev l + stateSegmentSum config .idle prev l +
      stateSegmentSum config .off prev l = consecutiveDurationSum (prev :: l) := by
  intro l
  induction l with
  | nil =>
      intro prev
      simp [stateSegmentSum, consecutiveDurationSum]
  | cons c rest ih =>
      intro prev
      rw [stateSegmentSum, stateSegmentSum, stateSegmentSum,
        consecutiveDurationSum, ← ih c]
      rcases h : classifyPointState prev config <;> simp [h] <;> ring

lemma consecDur_nonneg : ∀ (l : List GPSTrackPoint),
    0 ≤ consecutiveDurationSum l := by
  intro l
  induction l with
  | nil => norm_num [consecutiveDurationSum]
  | cons p rest ih =>
      cases rest with
      | nil => norm_num [consecutiveDurationSum]
      | cons q t =>
          rw [consecutiveDurationSum]
          exact add_nonneg (getPointDurationMinutes_nonneg p q) ih

lemma duration_of_ordered (prev c : GPSTrackPoint)
    (hp : prev.timestamp.isSome = true) (hc : c.timestamp.isSome = true)
    (hle : ptTime prev ≤ ptTime c) :
    getPointDurationMinutes prev c = (ptTime c - ptTime prev) / (1000 * 60) := by
  obtain ⟨tp, htp⟩ := Option.isSome_iff_exists.mp hp
  obtain ⟨tc, htc⟩ := Option.isSome_iff_exists.mp hc
  unfold ptTime at hle ⊢
  rw [htp, htc] at hle ⊢
  unfold getPointDurationMinutes getDurationMinutes
  rw [htp, htc]
  dsimp only
  rw [if_neg]
  · simp
  · simp only [Option.getD_some] at hle
    push_neg
    linarith

lemma consecDur_eq_span :
    ∀ (l : List GPSTrackPoint) (prev : GPSTrackPoint),
    prev.timestamp.isSome = true → (∀ p ∈ l, p.timestamp.isSome = true) →
    List.Chain (fun a b => ptTime a ≤ ptTime b) prev l →
    consecutiveDurationSum (prev :: l) =
      (ptTime ((prev :: l).getLast (List.cons_ne_nil prev l)) - ptTime prev) /
        (1000 * 60) := by
  intro l
  induction l with
  | nil =>
      intro prev _ _ _
      simp [consecutiveDurationSum, List.getLast]
  | cons c rest ih =>
      intro prev hp hall hchain
      cases hchain with
      | cons hpc htail =>
          have hc : c.timestamp.isSome = true := hall c (List.mem_cons_self c rest)
          have ihr := ih c hc
            (fun x hx => hall x (List.mem_cons_of_mem c hx)) htail
          rw [consecutiveDurationSum, ihr, duration_of_ordered prev c hp hc hpc,
            List.getLast_cons (List.cons_ne_nil c rest)]
          have hle2 : ptTime c ≤
              ptTime ((c :: rest).getLast (List.cons_ne_nil c rest)) := by
            have h0 := consecDur_nonneg (c :: rest)
            rw [ihr] at h0
            rcases div_nonneg_iff.mp h0 with ⟨h1, _⟩ | ⟨_, h2⟩
            · linarith
            · linarith
          ring

/-- Span between the first and last points of a nonempty ordered,
parseable list, as getDurationMinutes computes it. -/
lemma span_eq (first last : GPSTrackPoint)
    (hp : first.timestamp.isSome = true) (hl : last.timestamp.isSome = true)
    (hle : ptTime first ≤ ptTime last) :
    getDurationMinutes first.timestamp last.timestamp =
      (ptTime last - ptTime first) / (1000 * 60) :=
  duration_of_ordered first last hp hl hle

-- ═══════════════════════════════════════════════════════════════════
-- C1: segment attribution completeness
-- ═══════════════════════════════════════════════════════════════════

/-- C1: on a track with at least two points, chronologically ordered
and with parseable timestamps, moving time plus idle time plus the
dropped off time equals the segment-level span from the first point to
the last point of the track. -/
theorem segment_attribution_complete
    (dist : GPSTrackPoint → GPSTrackPoint → ℚ)
    (mean : List GPSTrackPoint → GeoLocation) (config : AnalyticsConfig)
    (track : GPSTrackResponse) (p q : GPSTrackPoint)
    (rest : List GPSTrackPoint)
    (hpts : track.points = p :: q :: rest)
    (hparse : ∀ x ∈ track.points, x.timestamp.isSome = true)
    (hchrono : track.points.Chain' (fun a b => ptTime a ≤ ptTime b)) :
    (computeBaseMetrics dist mean config track).totalMovingTimeMinutes +
      (computeBaseMetrics dist mean config track).totalIdleTimeMinutes +
      droppedOffTime config track.points =
    getDurationMinutes p.timestamp
      (((p :: q :: rest).getLast (List.cons_ne_nil p (q :: rest))).timestamp) := by
  obtain ⟨vid, stT, enT, pts⟩ := track
  simp only at hpts hparse hchrono
  subst hpts
  rw [computeBaseMetrics_cons]
  dsimp only
  obtain ⟨_, hF2, hF3, _, _⟩ := finalizeIdle_acc mean config
    (runLoop dist mean config (firstPoint mean config p) p (q :: rest))
    ((q :: rest).getLast (List.cons_ne_nil q rest))
  rw [hF2, hF3]
  obtain ⟨hR1, hR2, _⟩ := runLoop_acc dist mean config (q :: rest)
    (firstPoint mean config p) p
  rw [hR1, hR2]
  obtain ⟨_, hI2, hI3, _⟩ := firstPoint_acc mean config p
  rw [hI2, hI3]
  have hchain : List.Chain (fun a b => ptTime a ≤ ptTime b) p (q :: rest) :=
    hchrono
  have hp : p.timestamp.isSome = true :=
    hparse p (List.mem_cons_self p (q :: rest))
  have hspan := consecDur_eq_span (q :: rest) p hp
    (fun x hx => hparse x (List.mem_cons_of_mem p hx)) hchain
  have hlastsome :
      ((p :: q :: rest).getLast (List.cons_ne_nil p (q :: rest))).timestamp.isSome
        = true :=
    hparse _ (List.getLast_mem _)
  have hle : ptTime p ≤
      ptTime ((p :: q :: rest).getLast (List.cons_ne_nil p (q :: rest))) := by
    have h0 := consecDur_nonneg (p :: q :: rest)
    rw [hspan] at h0
    rcases div_nonneg_iff.mp h0 with ⟨h1, _⟩ | ⟨_, h2⟩
    · linarith
    · linarith
  rw [span_eq p _ hp hlastsome hle, ← hspan, ← threeState_sum config (q :: rest) p,
    droppedOffTime]
  ring

/-- Witness for C1: a three-point track with one moving, one idle
segment. -/
def witnessTrackC1 : GPSTrackResponse :=
  { vehicleId := "w1"
    startTime := some 0
    endTime := some 1200000
    points :=
      [ { latitude := 1, longitude := 1, speed := 50, timestamp := some 0,
          ignitionOn := true },
        { latitude := 2, longitude := 2, speed := 0, timestamp := some 600000,
          ignitionOn := true },
        { latitude := 2, longitude := 2, speed := 0, timestamp := some 1200000,
          ignitionOn := false } ] }

/-- Analytics configuration with the documented defaults. -/
def exampleConfig : AnalyticsConfig :=
  { idleSpeedThresholdKmh := 2
    longIdleThresholdMinutes := 10
    speedingThresholdKmh := 110
    expectedKmPerHour := 50
    stopPenaltyFactor := 50
    idleRiskFactor := 15 }

/-- A trivially computable stand-in for the transcendental parameters,
used only by concrete witnesses. -/
def zeroDist : GPSTrackPoint → GPSTrackPoint → ℚ := fun _ _ => 0

/-- A trivially computable spherical-mean stand-in for witnesses. -/
def zeroMean : List GPSTrackPoint → GeoLocation := fun _ => { lat := 0, lng := 0 }

/-- Witness for C1 on the concrete three-point track. -/
theorem segment_attribution_complete_witness :
    (computeBaseMetrics zeroDist zeroMean exampleConfig witnessTrackC1).totalMovingTimeMinutes +
      (computeBaseMetrics zeroDist zeroMean exampleConfig witnessTrackC1).totalIdleTimeMinutes +
      droppedOffTime exampleConfig witnessTrackC1.points =
    getDurationMinutes (some 0) (some 1200000) :=
  segment_attribution_complete zeroDist zeroMean exampleConfig witnessTrackC1
    _ _ _ rfl (by decide)
    (by norm_num [witnessTrackC1, List.chain'_cons, List.chain'_singleton, ptTime])

-- ═══════════════════════════════════════════════════════════════════
-- C5: stop counting
-- ═══════════════════════════════════════════════════════════════════

/-- C5: on a track with at least two points the number of stops equals
the number of consecutive pairs whose earlier point classifies as
moving and whose later point classifies as idle or off. -/
theorem numberOfStops_counts_stop_transitions
    (dist : GPSTrackPoint → GPSTrackPoint → ℚ)
    (mean : List GPSTrackPoint → GeoLocation) (config : AnalyticsConfig)
    (track : GPSTrackResponse) (p q : GPSTrackPoint)
    (rest : List GPSTrackPoint)
    (hpts : track.points = p :: q :: rest) :
    (computeBaseMetrics dist mean config track).numberOfStops =
      stopPairCount config track.points := by
  obtain ⟨vid, stT, enT, pts⟩ := track
  simp only at hpts
  subst hpts
  rw [computeBaseMetrics_cons]
  dsimp only
  rw [(finalizeIdle_acc mean config _ _).2.2.2.2,
    (runLoop_acc dist mean config (q :: rest) _ p).2.2,
    (firstPoint_acc mean config p).2.2.2, stopPairCount]
  omega

/-- Witness for C5 on the concrete three-point track. -/
theorem numberOfStops_counts_stop_transitions_witness :
    (computeBaseMetrics zeroDist zeroMean exampleConfig witnessTrackC1).numberOfStops =
      stopPairCount exampleConfig witnessTrackC1.points :=
  numberOfStops_counts_stop_transitions zeroDist zeroMean exampleConfig
    witnessTrackC1 _ _ _ rfl

-- ═══════════════════════════════════════════════════════════════════
-- C8: empty-track behavior
-- ═══════════════════════════════════════════════════════════════════

/-- C8: on an empty points array computeBaseMetrics returns all-zero
accumulated metrics with zero points analyzed, while totalTimeMinutes
still equals the duration of the declared bounds; that duration clamps
to 0 for unparseable bounds and for a reversed range. -/
theorem computeBaseMetrics_empty_track
    (dist : GPSTrackPoint → GPSTrackPoint → ℚ)
    (mean : List GPSTrackPoint → GeoLocation) (config : AnalyticsConfig)
    (track : GPSTrackResponse) (hpts : track.points = []) :
    (computeBaseMetrics dist mean config track).totalDistanceKm = 0 ∧
    (computeBaseMetrics dist mean config track).totalMovingTimeMinutes = 0 ∧
    (computeBaseMetrics dist mean config track).totalIdleTimeMinutes = 0 ∧
    (computeBaseMetrics dist mean config track).averageSpeedKmh = 0 ∧
    (computeBaseMetrics dist mean config track).maxSpeedKmh = 0 ∧
    (computeBaseMetrics dist mean config track).numberOfStops = 0 ∧
    (computeBaseMetrics dist mean config track).longIdleEvents = [] ∧
    (computeBaseMetrics dist mean config track).totalPointsAnalyzed = 0 ∧
    (computeBaseMetrics dist mean config track).totalTimeMinutes =
      getDurationMinutes track.startTime track.endTime ∧
    (∀ e : Timestamp, getDurationMinutes none e = 0) ∧
    (∀ s : ℚ, getDurationMinutes (some s) none = 0) ∧
    (∀ s e : ℚ, e < s → getDurationMinutes (some s) (some e) = 0) := by
  obtain ⟨vid, stT, enT, pts⟩ := track
  simp only at hpts
  subst hpts
  refine ⟨rfl, rfl, rfl, rfl, rfl, rfl, rfl, rfl, rfl, ?_, ?_, ?_⟩
  · intro e
    cases e <;> rfl
  · intro s
    rfl
  · intro s e h
    unfold getDurationMinutes
    dsimp only
    rw [if_pos]
    linarith

/-- Witness for C8 on a concrete empty track with a reversed range. -/
theorem computeBaseMetrics_empty_track_witness :
    (computeBaseMetrics zeroDist zeroMean exampleConfig
      { vehicleId := "w8", startTime := some 0, endTime := some 60000,
        points := [] }).totalPointsAnalyzed = 0 ∧
    getDurationMinutes (some 60000) (some 0) = 0 :=
  ⟨(computeBaseMetrics_empty_track zeroDist zeroMean exampleConfig
      { vehicleId := "w8", startTime := some 0, endTime := some 60000,
        points := [] } rfl).2.2.2.2.2.2.2.1,
   (computeBaseMetrics_empty_track zeroDist zeroMean exampleConfig
      { vehicleId := "w8", startTime := some 0, endTime := some 60000,
        points := [] } rfl).2.2.2.2.2.2.2.2.2.2.2 60000 0 (by norm_num)⟩

-- ═══════════════════════════════════════════════════════════════════
-- C9: nonnegativity and event-sum invariants
-- ═══════════════════════════════════════════════════════════════════

/-- Total duration over a list of idle events. -/
def eventDurationSum (events : List IdleEvent) : ℚ :=
  (events.map (fun e => e.durationMinutes)).sum

lemma eventDurationSum_append (a b : List IdleEvent) :
    eventDurationSum (a ++ b) = eventDurationSum a + eventDurationSum b := by
  simp [eventDurationSum]

lemma safeDivideQ_nonneg (n d : ℚ) (hn : 0 ≤ n) (hd : 0 ≤ d) :
    0 ≤ safeDivideQ n d 0 := by
  unfold safeDivideQ
  split
  · exact le_refl 0
  · exact div_nonneg hn hd

lemma exitIdleState_fst (mean : List GPSTrackPoint → GeoLocation)
    (tracker : IdleEventTracker) (endTime : Timestamp) (θ : ℚ) :
    (exitIdleState mean tracker endTime θ).1 = createIdleTracker := rfl

lemma exitIdleState_duration (mean : List GPSTrackPoint → GeoLocation)
    (tracker : IdleEventTracker) (endTime : Timestamp) (θ : ℚ)
    (e : IdleEvent) (h : (exitIdleState mean tracker endTime θ).2 = some e) :
    e.durationMinutes = tracker.accumulatedIdleMinutes := by
  unfold exitIdleState at h
  dsimp only at h
  rcases hts : tracker.idleStartTime with _ | ts
  · rw [hts] at h
    simp at h
  · rw [hts] at h
    dsimp only at h
    by_cases hθ : θ ≤ tracker.accumulatedIdleMinutes
    · rw [if_pos hθ] at h
      injection h with h
      rw [← h]
    · rw [if_neg hθ] at h
      simp at h

/-- Invariant carried through the metrics loop for the nonnegativity
claim: accumulated numeric fields are nonnegative and the total of the
emitted event durations plus the open accumulation never exceeds the
accumulated idle time. -/
def loopInvariant (st : LoopState) : Prop :=
  0 ≤ st.1.totalDistanceKm ∧ 0 ≤ st.1.totalMovingTimeMinutes ∧
  0 ≤ st.1.totalIdleTimeMinutes ∧ 0 ≤ st.1.maxSpeedKmh ∧
  0 ≤ st.2.accumulatedIdleMinutes ∧
  eventDurationSum st.1.longIdleEvents + st.2.accumulatedIdleMinutes ≤
    st.1.totalIdleTimeMinutes

lemma observePoint_inv (config : AnalyticsConfig) (st : LoopState)
    (point : GPSTrackPoint) (h : loopInvariant st) :
    loopInvariant (observePoint config st.1 point, st.2) := by
  obtain ⟨h1, h2, h3, h4, h5, h6⟩ := h
  obtain ⟨f1, f2, f3, _, f5⟩ := observePoint_fields config st.1 point
  exact ⟨by rw [f1]; exact h1, by rw [f2]; exact h2, by rw [f3]; exact h3,
    observePoint_maxSpeed_nonneg config st.1 point h4, h5,
    by rw [f5, f3]; exact h6⟩

lemma processSegment_inv (dist : GPSTrackPoint → GPSTrackPoint → ℚ)
    (config : AnalyticsConfig) (st : LoopState)
    (prevPoint currentPoint : GPSTrackPoint)
    (hd : ∀ a b, 0 ≤ dist a b) (h : loopInvariant st) :
    loopInvariant (processSegment dist config st.1 st.2 prevPoint currentPoint) := by
  obtain ⟨h1, h2, h3, h4, h5, h6⟩ := h
  obtain ⟨p1, p2, p3, p4, _, p6, p7⟩ :=
    processSegment_spec dist config st.1 st.2 prevPoint currentPoint
  have hdur := getPointDurationMinutes_nonneg prevPoint currentPoint
  refine ⟨?_, ?_, ?_, ?_, ?_, ?_⟩
  · rw [p1]
    split
    · exact add_nonneg h1 (hd _ _)
    · simpa using h1
  · rw [p2]
    split
    · exact add_nonneg h2 hdur
    · simpa using h2
  · rw [p3]
    split
    · exact add_nonneg h3 hdur
    · simpa using h3
  · rw [p4]
    exact h4
  · rw [p7]
    split
    · exact add_nonneg h5 hdur
    · exact h5
  · rw [p6, p3, p7]
    split
    · unfold accumulateIdleTime
      dsimp only
      linarith
    · linarith

lemma handleIdleTransition_inv (mean : List GPSTrackPoint → GeoLocation)
    (config : AnalyticsConfig) (st : LoopState)
    (previousState : Option VehicleState) (point : GPSTrackPoint)
    (h : loopInvariant st) :
    loopInvariant (handleIdleTransition mean config st previousState point) := by
  obtain ⟨h1, h2, h3, h4, h5, h6⟩ := h
  unfold handleIdleTransition
  dsimp only
  split
  · exact ⟨h1, h2, h3, h4, le_refl 0, by
      unfold enterIdleState
      dsimp only
      linarith⟩
  · split
    · rcases hev : (exitIdleState mean st.2 point.timestamp
          config.longIdleThresholdMinutes).2 with _ | e
      · dsimp only
        exact ⟨h1, h2, h3, h4, le_refl 0, by
          rw [exitIdleState_fst]
          unfold createIdleTracker
          dsimp only
          linarith⟩
      · dsimp only
        refine ⟨h1, h2, h3, h4, ?_, ?_⟩
        · rw [exitIdleState_fst]
          exact le_refl 0
        · rw [exitIdleState_fst]
          unfold createIdleTracker
          dsimp only
          rw [eventDurationSum_append]
          have := exitIdleState_duration mean st.2 point.timestamp
            config.longIdleThresholdMinutes e hev
          simp only [eventDurationSum, List.map_cons, List.map_nil,
            List.sum_cons, List.sum_nil] at *
          linarith
    · exact ⟨h1, h2, h3, h4, h5, h6⟩

lemma stepPoint_inv (dist : GPSTrackPoint → GPSTrackPoint → ℚ)
    (mean : List GPSTrackPoint → GeoLocation) (config : AnalyticsConfig)
    (st : LoopState) (prevPoint currentPoint : GPSTrackPoint)
    (hd : ∀ a b, 0 ≤ dist a b) (h : loopInvariant st) :
    loopInvariant (stepPoint dist mean config st prevPoint currentPoint) := by
  unfold stepPoint
  dsimp only
  exact handleIdleTransition_inv mean config _ _ _
    (processSegment_inv dist config
      (observePoint config st.1 currentPoint, st.2) prevPoint currentPoint hd
      (observePoint_inv config st currentPoint h))

lemma runLoop_inv (dist : GPSTrackPoint → GPSTrackPoint → ℚ)
    (mean : List GPSTrackPoint → GeoLocation) (config : AnalyticsConfig)
    (hd : ∀ a b, 0 ≤ dist a b) :
    ∀ (l : List GPSTrackPoint) (st : LoopState) (prev : GPSTrackPoint),
    loopInvariant st → loopInvariant (runLoop dist mean config st prev l) := by
  intro l
  induction l with
  | nil =>
      intro st prev h
      exact h
  | cons c rest ih =>
      intro st prev h
      exact ih _ c (stepPoint_inv dist mean config st prev c hd h)

lemma firstPoint_inv (mean : List GPSTrackPoint → GeoLocation)
    (config : AnalyticsConfig) (point : GPSTrackPoint) :
    loopInvariant (firstPoint mean config point) := by
  unfold firstPoint
  refine handleIdleTransition_inv mean config _ _ _ ?_
  refine observePoint_inv config (initAccumulator, createIdleTracker) point ?_
  unfold loopInvariant initAccumulator createIdleTracker eventDurationSum
  norm_num

lemma finalizeIdle_eventSum (mean : List GPSTrackPoint → GeoLocation)
    (config : AnalyticsConfig) (st : LoopState) (lastPoint : GPSTrackPoint)
    (h : loopInvariant st) :
    eventDurationSum (finalizeIdle mean config st lastPoint).longIdleEvents ≤
      (finalizeIdle mean config st lastPoint).totalIdleTimeMinutes := by
  obtain ⟨_, _, _, _, h5, h6⟩ := h
  obtain ⟨_, _, fI, _, _⟩ := finalizeIdle_acc mean config st lastPoint
  rw [fI]
  unfold finalizeIdle
  split
  · rcases hev : (exitIdleState mean st.2 lastPoint.timestamp
        config.longIdleThresholdMinutes).2 with _ | e
    · dsimp only
      linarith
    · dsimp only
      rw [eventDurationSum_append]
      have := exitIdleState_duration mean st.2 lastPoint.timestamp
        config.longIdleThresholdMinutes e hev
      simp only [eventDurationSum, List.map_cons, List.map_nil,
        List.sum_cons, List.sum_nil] at *
      linarith
  · linarith

/-- C9: for every track and config (with nonnegative point speeds as
the data model requires, and a nonnegative distance function as the
haversine formula guarantees) every numeric field of the computed base
metrics is nonnegative and the emitted long idle event durations sum to
at most the total idle time. -/
theorem computeBaseMetrics_fields_nonneg
    (dist : GPSTrackPoint → GPSTrackPoint → ℚ)
    (mean : List GPSTrackPoint → GeoLocation) (config : AnalyticsConfig)
    (track : GPSTrackResponse)
    (hd : ∀ a b, 0 ≤ dist a b)
    (hsp : ∀ p ∈ track.points, 0 ≤ p.speed) :
    0 ≤ (computeBaseMetrics dist mean config track).totalDistanceKm ∧
    0 ≤ (computeBaseMetrics dist mean config track).totalMovingTimeMinutes ∧
    0 ≤ (computeBaseMetrics dist mean config track).totalIdleTimeMinutes ∧
    0 ≤ (computeBaseMetrics dist mean config track).totalTimeMinutes ∧
    0 ≤ (computeBaseMetrics dist mean config track).averageSpeedKmh ∧
    0 ≤ (computeBaseMetrics dist mean config track).maxSpeedKmh ∧
    0 ≤ (computeBaseMetrics dist mean config track).numberOfStops ∧
    0 ≤ (computeBaseMetrics dist mean config track).totalPointsAnalyzed ∧
    eventDurationSum (computeBaseMetrics dist mean config track).longIdleEvents ≤
      (computeBaseMetrics dist mean config track).totalIdleTimeMinutes := by
  obtain ⟨vid, stT, enT, pts⟩ := track
  simp only at hsp
  match pts with
  | [] =>
      refine ⟨le_refl 0, le_refl 0, le_refl 0, getDurationMinutes_nonneg _ _,
        le_refl 0, le_refl 0, Nat.zero_le _, Nat.zero_le _, le_refl 0⟩
  | [single] =>
      refine ⟨le_refl 0, le_refl 0, le_refl 0, getDurationMinutes_nonneg _ _,
        le_refl 0, ?_, Nat.zero_le _, Nat.zero_le _, le_refl 0⟩
      show 0 ≤ (if single.ignitionOn then single.speed else 0)
      split
      · exact hsp single (List.mem_cons_self single [])
      · exact le_refl 0
  | p :: q :: rest =>
      rw [computeBaseMetrics_cons]
      dsimp only
      have hinv : loopInvariant
          (runLoop dist mean config (firstPoint mean config p) p (q :: rest)) :=
        runLoop_inv dist mean config hd (q :: rest) _ p
          (firstPoint_inv mean config p)
      obtain ⟨i1, i2, i3, i4, i5, i6⟩ := hinv
      obtain ⟨f1, f2, f3, f4, _⟩ := finalizeIdle_acc mean config
        (runLoop dist mean config (firstPoint mean config p) p (q :: rest))
        ((q :: rest).getLast (List.cons_ne_nil q rest))
      refine ⟨by rw [f1]; exact i1, by rw [f2]; exact i2, by rw [f3]; exact i3,
        getDurationMinutes_nonneg _ _, ?_, by rw [f4]; exact i4,
        Nat.zero_le _, Nat.zero_le _, ?_⟩
      · refine safeDivideQ_nonneg _ _ (by rw [f1]; exact i1) ?_
        rw [f2]
        positivity
      · exact finalizeIdle_eventSum mean config _ _ ⟨i1, i2, i3, i4, i5, i6⟩

/-- Witness for C9 on the concrete three-point track. -/
theorem computeBaseMetrics_fields_nonneg_witness :
    0 ≤ (computeBaseMetrics zeroDist zeroMean exampleConfig
      witnessTrackC1).totalIdleTimeMinutes ∧
    eventDurationSum (computeBaseMetrics zeroDist zeroMean exampleConfig
      witnessTrackC1).longIdleEvents ≤
      (computeBaseMetrics zeroDist zeroMean exampleConfig
        witnessTrackC1).totalIdleTimeMinutes :=
  ⟨(computeBaseMetrics_fields_nonneg zeroDist zeroMean exampleConfig
      witnessTrackC1 (fun _ _ => le_refl 0) (by decide)).2.2.1,
   (computeBaseMetrics_fields_nonneg zeroDist zeroMean exampleConfig
      witnessTrackC1 (fun _ _ => le_refl 0) (by decide)).2.2.2.2.2.2.2.2⟩

-- ═══════════════════════════════════════════════════════════════════
-- C4 and C10: idle events against the maximal-run decomposition
-- ═══════════════════════════════════════════════════════════════════

/-- Whether a point classifies as idle. -/
def isIdlePoint (config : AnalyticsConfig) (p : GPSTrackPoint) : Bool :=
  classifyPointState p config = .idle

lemma dropWhile_length_le (p : GPSTrackPoint → Bool) :
    ∀ (l : List GPSTrackPoint), (l.dropWhile p).length ≤ l.length := by
  intro l
  induction l with
  | nil => simp
  | cons a t ih =>
      rw [List.dropWhile]
      cases p a
      · simp
      · simpa using Nat.le_succ_of_le ih

/-- Reference decomposition written from the spec: walk the list, and
at each idle point take the maximal contiguous idle run starting there.
The window of a run is the run itself plus the first following point
when one exists, since the segment leaving the run is attributed to
idle; the event duration is the sum of the consecutive segment
durations inside the window, the end time is the last window point, the
location is the centroid of the window points with the run start as
fallback. A run yields an event exactly when its duration reaches the
threshold. -/
def specIdleEventsFrom (mean : List GPSTrackPoint → GeoLocation)
    (config : AnalyticsConfig) : List GPSTrackPoint → List IdleEvent
  | [] => []
  | p :: rest =>
      if isIdlePoint config p then
        (if config.longIdleThresholdMinutes ≤
            consecutiveDurationSum
              (p :: (rest.takeWhile (isIdlePoint config) ++
                ((rest.dropWhile (isIdlePoint config)).head?).toList)) then
          [{ startTime := p.timestamp
             endTime :=
               ((rest.takeWhile (isIdlePoint config) ++
                 ((rest.dropWhile (isIdlePoint config)).head?).toList).getLastD
                 p).timestamp
             durationMinutes :=
               consecutiveDurationSum
                 (p :: (rest.takeWhile (isIdlePoint config) ++
                   ((rest.dropWhile (isIdlePoint config)).head?).toList))
             location :=
               (calculateCentroid mean
                 (p :: (rest.takeWhile (isIdlePoint config) ++
                   ((rest.dropWhile (isIdlePoint config)).head?).toList))).getD
                 { lat := p.latitude, lng := p.longitude } }]
        else []) ++
        specIdleEventsFrom mean config (rest.dropWhile (isIdlePoint config))
      else specIdleEventsFrom mean config rest
termination_by l => l.length
decreasing_by
  · simp only [List.length_cons]
    exact Nat.lt_succ_of_le (dropWhile_length_le _ _)
  · simp

/-- The event list an open idle run will contribute, given the tracker
data accumulated so far (start time, start location, accumulated
minutes, sampled points) and the remaining walk from the current
point. -/
def runEventOut (mean : List GPSTrackPoint → GeoLocation)
    (config : AnalyticsConfig) (ts0 : Timestamp) (loc0 : GeoLocation)
    (acc0 : ℚ) (ips : List GPSTrackPoint) (prev : GPSTrackPoint)
    (l : List GPSTrackPoint) : List IdleEvent :=
  if config.longIdleThresholdMinutes ≤
      acc0 + consecutiveDurationSum
        (prev :: (l.takeWhile (isIdlePoint config) ++
          ((l.dropWhile (isIdlePoint config)).head?).toList)) then
    [{ startTime := ts0
       endTime :=
         ((l.takeWhile (isIdlePoint config) ++
           ((l.dropWhile (isIdlePoint config)).head?).toList).getLastD
           prev).timestamp
       durationMinutes :=
         acc0 + consecutiveDurationSum
           (prev :: (l.takeWhile (isIdlePoint config) ++
             ((l.dropWhile (isIdlePoint config)).head?).toList))
       location :=
         (calculateCentroid mean
           (ips ++ (l.takeWhile (isIdlePoint config) ++
             ((l.dropWhile (isIdlePoint config)).head?).toList))).getD loc0 }]
  else []

/-- Events produced by the loop from a given state, the post-loop
finalize included. -/
def loopEvents (dist : GPSTrackPoint → GPSTrackPoint → ℚ)
    (mean : List GPSTrackPoint → GeoLocation) (config : AnalyticsConfig)
    (st : LoopState) (prev : GPSTrackPoint)
    (l : List GPSTrackPoint) : List IdleEvent :=
  (finalizeIdle mean config (runLoop dist mean config st prev l)
    ((prev :: l).getLast (List.cons_ne_nil prev l))).longIdleEvents

lemma enterIdleState_eq (tracker : IdleEventTracker) (point : GPSTrackPoint) :
    enterIdleState tracker point =
      { isInIdleState := true
        idleStartTime := some point.timestamp
        idleStartLocation := some { lat := point.latitude, lng := point.longitude }
        accumulatedIdleMinutes := 0
        idlePoints := [point] } := rfl

lemma accumulateIdleTime_eq (tracker : IdleEventTracker)
    (point : GPSTrackPoint) (d : ℚ) :
    accumulateIdleTime tracker point d =
      { isInIdleState := tracker.isInIdleState
        idleStartTime := tracker.idleStartTime
        idleStartLocation := tracker.idleStartLocation
        accumulatedIdleMinutes := tracker.accumulatedIdleMinutes + d
        idlePoints := tracker.idlePoints ++ [point] } := rfl

lemma append_option_toList (E : List IdleEvent) (o : Option IdleEvent) :
    (match o with
      | some e => E ++ [e]
      | none => E) = E ++ o.toList := by
  cases o <;> simp

lemma exitIdleState_toList (mean : List GPSTrackPoint → GeoLocation)
    (config : AnalyticsConfig) (ts0 : Timestamp) (loc0 : GeoLocation)
    (acc : ℚ) (ips : List GPSTrackPoint) (endTime : Timestamp) :
    (exitIdleState mean
        { isInIdleState := true, idleStartTime := some ts0,
          idleStartLocation := some loc0, accumulatedIdleMinutes := acc,
          idlePoints := ips } endTime config.longIdleThresholdMinutes).2.toList =
      if config.longIdleThresholdMinutes ≤ acc then
        [{ startTime := ts0, endTime := endTime, durationMinutes := acc,
           location := (calculateCentroid mean ips).getD loc0 }]
      else [] := by
  unfold exitIdleState
  dsimp only
  split <;> simp [Option.toList]

lemma matchEvents_project (A : MetricsAccumulator) (o : Option IdleEvent) :
    (match o with
      | some e => { A with longIdleEvents := A.longIdleEvents ++ [e] }
      | none => A).longIdleEvents = A.longIdleEvents ++ o.toList := by
  cases o <;> simp [Option.toList]

lemma specFrom_nil (mean : List GPSTrackPoint → GeoLocation)
    (config : AnalyticsConfig) :
    specIdleEventsFrom mean config [] = [] := by
  rw [specIdleEventsFrom]

lemma specFrom_cons_idle (mean : List GPSTrackPoint → GeoLocation)
    (config : AnalyticsConfig) (c : GPSTrackPoint) (t : List GPSTrackPoint)
    (h : isIdlePoint config c = true) :
    specIdleEventsFrom mean config (c :: t) =
      runEventOut mean config c.timestamp
        { lat := c.latitude, lng := c.longitude } 0 [c] c t ++
      specIdleEventsFrom mean config (t.dropWhile (isIdlePoint config)) := by
  rw [specIdleEventsFrom, if_pos h]
  unfold runEventOut
  simp only [zero_add, List.singleton_append]

lemma specFrom_cons_nonidle (mean : List GPSTrackPoint → GeoLocation)
    (config : AnalyticsConfig) (c : GPSTrackPoint) (t : List GPSTrackPoint)
    (h : isIdlePoint config c = false) :
    specIdleEventsFrom mean config (c :: t) =
      specIdleEventsFrom mean config t := by
  rw [specIdleEventsFrom, if_neg (by simp [h])]

lemma runEventOut_cons_idle (mean : List GPSTrackPoint → GeoLocation)
    (config : AnalyticsConfig) (ts0 : Timestamp) (loc0 : GeoLocation)
    (acc0 : ℚ) (ips : List GPSTrackPoint) (prev c : GPSTrackPoint)
    (t : List GPSTrackPoint) (hc : isIdlePoint config c = true) :
    runEventOut mean config ts0 loc0 acc0 ips prev (c :: t) =
      runEventOut mean config ts0 loc0
        (acc0 + getPointDurationMinutes prev c) (ips ++ [c]) c t := by
  unfold runEventOut
  rw [List.takeWhile_cons_of_pos hc, List.dropWhile_cons_of_pos hc,
    List.cons_append, List.getLastD_cons, List.append_cons ips c]
  simp only [consecutiveDurationSum]
  simp only [← add_assoc]

lemma runEventOut_cons_nonidle (mean : List GPSTrackPoint → GeoLocation)
    (config : AnalyticsConfig) (ts0 : Timestamp) (loc0 : GeoLocation)
    (acc0 : ℚ) (ips : List GPSTrackPoint) (prev c : GPSTrackPoint)
    (t : List GPSTrackPoint) (hc : isIdlePoint config c = false) :
    runEventOut mean config ts0 loc0 acc0 ips prev (c :: t) =
      if config.longIdleThresholdMinutes ≤
          acc0 + getPointDurationMinutes prev c then
        [{ startTime := ts0, endTime := c.timestamp,
           durationMinutes := acc0 + getPointDurationMinutes prev c,
           location := (calculateCentroid mean (ips ++ [c])).getD loc0 }]
      else [] := by
  unfold runEventOut
  rw [List.takeWhile_cons_of_neg (by simp [hc]),
    List.dropWhile_cons_of_neg (by simp [hc])]
  simp [consecutiveDurationSum]

lemma runEventOut_nil (mean : List GPSTrackPoint → GeoLocation)
    (config : AnalyticsConfig) (ts0 : Timestamp) (loc0 : GeoLocation)
    (acc0 : ℚ) (ips : List GPSTrackPoint) (prev : GPSTrackPoint) :
    runEventOut mean config ts0 loc0 acc0 ips prev [] =
      if config.longIdleThresholdMinutes ≤ acc0 then
        [{ startTime := ts0, endTime := prev.timestamp,
           durationMinutes := acc0,
           location := (calculateCentroid mean ips).getD loc0 }]
      else [] := by
  unfold runEventOut
  simp [consecutiveDurationSum]

lemma loopEvents_cons (dist : GPSTrackPoint → GPSTrackPoint → ℚ)
    (mean : List GPSTrackPoint → GeoLocation) (config : AnalyticsConfig)
    (st : LoopState) (prev c : GPSTrackPoint) (t : List GPSTrackPoint) :
    loopEvents dist mean config st prev (c :: t) =
      loopEvents dist mean config (stepPoint dist mean config st prev c) c t := by
  unfold loopEvents
  rw [runLoop, List.getLast_cons (List.cons_ne_nil c t)]

lemma stepPoint_case_nn (dist : GPSTrackPoint → GPSTrackPoint → ℚ)
    (mean : List GPSTrackPoint → GeoLocation) (config : AnalyticsConfig)
    (st : LoopState) (prev c : GPSTrackPoint)
    (hp : classifyPointState prev config ≠ .idle)
    (hc : classifyPointState c config ≠ .idle) :
    (stepPoint dist mean config st prev c).1.longIdleEvents =
      st.1.longIdleEvents ∧
    (stepPoint dist mean config st prev c).2 = st.2 := by
  unfold stepPoint handleIdleTransition
  dsimp only
  rw [if_neg (by simp [hc]), if_neg (by simp [hp])]
  obtain ⟨_, _, _, _, _, p6, p7⟩ :=
    processSegment_spec dist config (observePoint config st.1 c) st.2 prev c
  obtain ⟨_, _, _, _, o5⟩ := observePoint_fields config st.1 c
  exact ⟨by rw [p6, o5], by rw [p7, if_neg hp]⟩

lemma stepPoint_case_ni (dist : GPSTrackPoint → GPSTrackPoint → ℚ)
    (mean : List GPSTrackPoint → GeoLocation) (config : AnalyticsConfig)
    (st : LoopState) (prev c : GPSTrackPoint)
    (hp : classifyPointState prev config ≠ .idle)
    (hc : classifyPointState c config = .idle) :
    (stepPoint dist mean config st prev c).1.longIdleEvents =
      st.1.longIdleEvents ∧
    (stepPoint dist mean config st prev c).2 = enterIdleState st.2 c := by
  unfold stepPoint handleIdleTransition
  dsimp only
  rw [if_pos ⟨hc, by simpa using hp⟩]
  obtain ⟨_, _, _, _, _, p6, _⟩ :=
    processSegment_spec dist config (observePoint config st.1 c) st.2 prev c
  obtain ⟨_, _, _, _, o5⟩ := observePoint_fields config st.1 c
  exact ⟨by rw [p6, o5], by rw [enterIdleState_eq, enterIdleState_eq]⟩

lemma stepPoint_case_ii (dist : GPSTrackPoint → GPSTrackPoint → ℚ)
    (mean : List GPSTrackPoint → GeoLocation) (config : AnalyticsConfig)
    (st : LoopState) (prev c : GPSTrackPoint)
    (hp : classifyPointState prev config = .idle)
    (hc : classifyPointState c config = .idle) :
    (stepPoint dist mean config st prev c).1.longIdleEvents =
      st.1.longIdleEvents ∧
    (stepPoint dist mean config st prev c).2 =
      accumulateIdleTime st.2 c (getPointDurationMinutes prev c) := by
  unfold stepPoint handleIdleTransition
  dsimp only
  rw [if_neg (by simp [hp]), if_neg (by simp [hc])]
  obtain ⟨_, _, _, _, _, p6, p7⟩ :=
    processSegment_spec dist config (observePoint config st.1 c) st.2 prev c
  obtain ⟨_, _, _, _, o5⟩ := observePoint_fields config st.1 c
  exact ⟨by rw [p6, o5], by rw [p7, if_pos hp]⟩

lemma stepPoint_case_in (dist : GPSTrackPoint → GPSTrackPoint → ℚ)
    (mean : List GPSTrackPoint → GeoLocation) (config : AnalyticsConfig)
    (st : LoopState) (prev c : GPSTrackPoint)
    (hp : classifyPointState prev config = .idle)
    (hc : classifyPointState c config ≠ .idle) :
    (stepPoint dist mean config st prev c).1.longIdleEvents =
      st.1.longIdleEvents ++
        ((exitIdleState mean
          (accumulateIdleTime st.2 c (getPointDurationMinutes prev c))
          c.timestamp config.longIdleThresholdMinutes).2).toList ∧
    (stepPoint dist mean config st prev c).2 = createIdleTracker := by
  unfold stepPoint handleIdleTransition
  dsimp only
  rw [if_neg (by simp [hc]), if_pos ⟨hc, by rw [hp]⟩]
  obtain ⟨_, _, _, _, _, p6, p7⟩ :=
    processSegment_spec dist config (observePoint config st.1 c) st.2 prev c
  obtain ⟨_, _, _, _, o5⟩ := observePoint_fields config st.1 c
  constructor
  · rw [matchEvents_project, p6, o5, p7, if_pos hp]
  · rw [exitIdleState_fst]

lemma firstPoint_events (mean : List GPSTrackPoint → GeoLocation)
    (config : AnalyticsConfig) (point : GPSTrackPoint) :
    (firstPoint mean config point).1.longIdleEvents = [] := by
  unfold firstPoint handleIdleTransition
  dsimp only
  obtain ⟨_, _, _, _, o5⟩ := observePoint_fields config initAccumulator point
  split
  · rw [o5]
    rfl
  · split
    · rename_i hcond
      exact absurd hcond.2 (by simp)
    · rw [o5]
      rfl

lemma firstPoint_tracker_idle (mean : List GPSTrackPoint → GeoLocation)
    (config : AnalyticsConfig) (point : GPSTrackPoint)
    (h : classifyPointState point config = .idle) :
    (firstPoint mean config point).2 = enterIdleState createIdleTracker point := by
  unfold firstPoint handleIdleTransition
  dsimp only
  rw [if_pos ⟨h, by simp⟩]

lemma firstPoint_tracker_nonidle (mean : List GPSTrackPoint → GeoLocation)
    (config : AnalyticsConfig) (point : GPSTrackPoint)
    (h : classifyPointState point config ≠ .idle) :
    (firstPoint mean config point).2 = createIdleTracker := by
  unfold firstPoint handleIdleTransition
  dsimp only
  rw [if_neg (by simp [h]), if_neg (by simp)]

lemma loopBridge_nil (dist : GPSTrackPoint → GPSTrackPoint → ℚ)
    (mean : List GPSTrackPoint → GeoLocation) (config : AnalyticsConfig)
    (st : LoopState) (prev : GPSTrackPoint) :
    (classifyPointState prev config ≠ .idle → st.2 = createIdleTracker →
      loopEvents dist mean config st prev [] =
        st.1.longIdleEvents ++ specIdleEventsFrom mean config []) ∧
    (classifyPointState prev config = .idle →
      ∀ (ts0 : Timestamp) (loc0 : GeoLocation) (acc0 : ℚ)
        (ips : List GPSTrackPoint),
        st.2 = { isInIdleState := true, idleStartTime := some ts0,
                 idleStartLocation := some loc0,
                 accumulatedIdleMinutes := acc0, idlePoints := ips } →
      loopEvents dist mean config st prev [] =
        st.1.longIdleEvents ++
          runEventOut mean config ts0 loc0 acc0 ips prev [] ++
          specIdleEventsFrom mean config
            ([].dropWhile (isIdlePoint config))) := by
  constructor
  · intro _ htr
    show (finalizeIdle mean config st prev).longIdleEvents =
      st.1.longIdleEvents ++ specIdleEventsFrom mean config []
    rw [specFrom_nil, List.append_nil]
    unfold finalizeIdle
    rw [htr]
    rfl
  · intro _ ts0 loc0 acc0 ips htr
    show (finalizeIdle mean config st prev).longIdleEvents = _
    unfold finalizeIdle
    rw [htr]
    rw [if_pos rfl, matchEvents_project, exitIdleState_toList,
      runEventOut_nil, List.dropWhile_nil, specFrom_nil, List.append_nil]

lemma loopBridge (dist : GPSTrackPoint → GPSTrackPoint → ℚ)
    (mean : List GPSTrackPoint → GeoLocation) (config : AnalyticsConfig) :
    ∀ (n : ℕ) (l : List GPSTrackPoint), l.length ≤ n →
    ∀ (st : LoopState) (prev : GPSTrackPoint),
    (classifyPointState prev config ≠ .idle → st.2 = createIdleTracker →
      loopEvents dist mean config st prev l =
        st.1.longIdleEvents ++ specIdleEventsFrom mean config l) ∧
    (classifyPointState prev config = .idle →
      ∀ (ts0 : Timestamp) (loc0 : GeoLocation) (acc0 : ℚ)
        (ips : List GPSTrackPoint),
        st.2 = { isInIdleState := true, idleStartTime := some ts0,
                 idleStartLocation := some loc0,
                 accumulatedIdleMinutes := acc0, idlePoints := ips } →
      loopEvents dist mean config st prev l =
        st.1.longIdleEvents ++
          runEventOut mean config ts0 loc0 acc0 ips prev l ++
          specIdleEventsFrom mean config
            (l.dropWhile (isIdlePoint config))) := by
  intro n
  induction n with
  | zero =>
      intro l hl st prev
      have hnil : l = [] := List.eq_nil_of_length_eq_zero (Nat.le_zero.mp hl)
      subst hnil
      exact loopBridge_nil dist mean config st prev
  | succ n ih =>
      intro l hl st prev
      cases l with
      | nil => exact loopBridge_nil dist mean config st prev
      | cons c t =>
          have ht : t.length ≤ n := by
            simp only [List.length_cons] at hl
            omega
          constructor
          · intro hp htr
            rw [loopEvents_cons]
            by_cases hc : classifyPointState c config = .idle
            · obtain ⟨hev, htk⟩ :=
                stepPoint_case_ni dist mean config st prev c hp hc
              have hB := (ih t ht (stepPoint dist mean config st prev c) c).2 hc
                c.timestamp { lat := c.latitude, lng := c.longitude } 0 [c]
                (by rw [htk, enterIdleState_eq])
              rw [hB, hev, specFrom_cons_idle mean config c t
                (by simp [isIdlePoint, hc]), List.append_assoc]
            · obtain ⟨hev, htk⟩ :=
                stepPoint_case_nn dist mean config st prev c hp hc
              have hA := (ih t ht (stepPoint dist mean config st prev c) c).1 hc
                (by rw [htk, htr])
              rw [hA, hev, specFrom_cons_nonidle mean config c t
                (by simp [isIdlePoint, hc])]
          · intro hp ts0 loc0 acc0 ips htr
            rw [loopEvents_cons]
            by_cases hc : classifyPointState c config = .idle
            · have hcB : isIdlePoint config c = true := by
                simp [isIdlePoint, hc]
              obtain ⟨hev, htk⟩ :=
                stepPoint_case_ii dist mean config st prev c hp hc
              have hB := (ih t ht (stepPoint dist mean config st prev c) c).2 hc
                ts0 loc0 (acc0 + getPointDurationMinutes prev c) (ips ++ [c])
                (by rw [htk, htr, accumulateIdleTime_eq])
              rw [hB, hev,
                runEventOut_cons_idle mean config ts0 loc0 acc0 ips prev c t hcB,
                List.dropWhile_cons_of_pos hcB]
            · have hcB : isIdlePoint config c = false := by
                simp [isIdlePoint, hc]
              obtain ⟨hev, htk⟩ :=
                stepPoint_case_in dist mean config st prev c hp hc
              have hA := (ih t ht (stepPoint dist mean config st prev c) c).1 hc htk
              rw [hA, hev, htr, accumulateIdleTime_eq, exitIdleState_toList,
                runEventOut_cons_nonidle mean config ts0 loc0 acc0 ips prev c t hcB,
                List.dropWhile_cons_of_neg (by simp [hcB]),
                specFrom_cons_nonidle mean config c t hcB]

/-- The events of computeBaseMetrics on a track of at least two points
coincide with the maximal-run decomposition, with no side condition. -/
lemma events_eq_specFrom_cons (dist : GPSTrackPoint → GPSTrackPoint → ℚ)
    (mean : List GPSTrackPoint → GeoLocation) (config : AnalyticsConfig)
    (vid : String) (stT enT : Timestamp) (p q : GPSTrackPoint)
    (rest : List GPSTrackPoint) :
    (computeBaseMetrics dist mean config
        { vehicleId := vid, startTime := stT, endTime := enT,
          points := p :: q :: rest }).longIdleEvents =
      specIdleEventsFrom mean config (p :: q :: rest) := by
  rw [computeBaseMetrics_cons]
  dsimp only
  have hle : loopEvents dist mean config (firstPoint mean config p) p (q :: rest) =
      (finalizeIdle mean config
        (runLoop dist mean config (firstPoint mean config p) p (q :: rest))
        ((q :: rest).getLast (List.cons_ne_nil q rest))).longIdleEvents := by
    unfold loopEvents
    rw [List.getLast_cons (List.cons_ne_nil q rest)]
  rw [← hle]
  by_cases hp : classifyPointState p config = .idle
  · have hB := (loopBridge dist mean config (q :: rest).length (q :: rest)
      (le_refl _) (firstPoint mean config p) p).2 hp
      p.timestamp { lat := p.latitude, lng := p.longitude } 0 [p]
      (by rw [firstPoint_tracker_idle mean config p hp, enterIdleState_eq])
    rw [hB, firstPoint_events, List.nil_append,
      specFrom_cons_idle mean config p (q :: rest) (by simp [isIdlePoint, hp])]
  · have hA := (loopBridge dist mean config (q :: rest).length (q :: rest)
      (le_refl _) (firstPoint mean config p) p).1 hp
      (firstPoint_tracker_nonidle mean config p hp)
    rw [hA, firstPoint_events, List.nil_append,
      specFrom_cons_nonidle mean config p (q :: rest) (by simp [isIdlePoint, hp])]

/-- A single-point track yields no run event when the threshold is
positive: its only possible run has no segments, so zero accumulated
minutes. -/
lemma specFrom_single (mean : List GPSTrackPoint → GeoLocation)
    (config : AnalyticsConfig) (single : GPSTrackPoint)
    (hθ : 0 < config.longIdleThresholdMinutes) :
    specIdleEventsFrom mean config [single] = [] := by
  cases hidle : isIdlePoint config single with
  | false =>
      rw [specFrom_cons_nonidle mean config single [] hidle, specFrom_nil]
  | true =>
      rw [specIdleEventsFrom, if_pos hidle]
      simp only [List.takeWhile_nil, List.dropWhile_nil, List.head?_nil,
        Option.toList_none, List.append_nil, consecutiveDurationSum]
      rw [if_neg (not_le.mpr hθ), specFrom_nil]
      rfl

/-- C4: with a positive long-idle threshold, the idle events emitted by
computeBaseMetrics are exactly the maximal contiguous idle runs (the
run still open at track end included, finalized at the last point)
whose accumulated idle minutes reach the threshold, each with
durationMinutes equal to the sum of the idle segment durations inside
the run. -/
theorem longIdleEvents_match_runs
    (dist : GPSTrackPoint → GPSTrackPoint → ℚ)
    (mean : List GPSTrackPoint → GeoLocation) (config : AnalyticsConfig)
    (track : GPSTrackResponse)
    (hθ : 0 < config.longIdleThresholdMinutes) :
    (computeBaseMetrics dist mean config track).longIdleEvents =
      specIdleEventsFrom mean config track.points := by
  obtain ⟨vid, stT, enT, pts⟩ := track
  simp only
  match pts with
  | [] =>
      rw [specFrom_nil]
      rfl
  | [single] =>
      rw [specFrom_single mean config single hθ]
      rfl
  | p :: q :: rest =>
      exact events_eq_specFrom_cons dist mean config vid stT enT p q rest

/-- First point of the idle-run witness track: idle at time 0. -/
def wPtA : GPSTrackPoint :=
  { latitude := 1, longitude := 1, speed := 0, timestamp := some 0,
    ignitionOn := true }

/-- Second point of the idle-run witness track: idle ten minutes in. -/
def wPtB : GPSTrackPoint :=
  { latitude := 1, longitude := 1, speed := 0, timestamp := some 600000,
    ignitionOn := true }

/-- Third point of the idle-run witness track: moving twelve minutes in. -/
def wPtC : GPSTrackPoint :=
  { latitude := 2, longitude := 2, speed := 50, timestamp := some 720000,
    ignitionOn := true }

/-- A three-point track with a twelve-minute idle run ending in a
moving point, used by the C4 and C10 witnesses. -/
def witnessTrackC4 : GPSTrackResponse :=
  { vehicleId := "w4"
    startTime := some 0
    endTime := some 720000
    points := [wPtA, wPtB, wPtC] }

/-- Witness for C4 on the concrete idle-run track. -/
theorem longIdleEvents_match_runs_witness :
    (computeBaseMetrics zeroDist zeroMean exampleConfig
        witnessTrackC4).longIdleEvents =
      specIdleEventsFrom zeroMean exampleConfig witnessTrackC4.points :=
  longIdleEvents_match_runs zeroDist zeroMean exampleConfig witnessTrackC4
    (by norm_num [exampleConfig])

-- ═══════════════════════════════════════════════════════════════════
-- C10: event locations come from the centroid, fallbacks unreachable
-- ═══════════════════════════════════════════════════════════════════

/-- The centroid of a nonempty sample list with head p and tail rest,
written total and fallback-free: the point itself for a singleton
sample, the spherical (3D unit-vector) mean for two or more points.
These are exactly the two some branches of calculateCentroid; no
start-location or origin fallback appears. -/
def sphericalCentroid (mean : List GPSTrackPoint → GeoLocation)
    (p : GPSTrackPoint) (rest : List GPSTrackPoint) : GeoLocation :=
  match rest with
  | [] => { lat := p.latitude, lng := p.longitude }
  | q :: t => mean (p :: q :: t)

/-- On a nonempty list calculateCentroid never returns none, and its
value is the fallback-free spherical centroid. -/
lemma calculateCentroid_cons (mean : List GPSTrackPoint → GeoLocation)
    (p : GPSTrackPoint) (rest : List GPSTrackPoint) :
    calculateCentroid mean (p :: rest) =
      some (sphericalCentroid mean p rest) := by
  cases rest with
  | nil => rfl
  | cons q t => rfl

/-- The maximal-run decomposition of specIdleEventsFrom with every
event located at the fallback-free spherical centroid of its run
window: no getD, no start-location fallback, no origin fallback. -/
def specIdleEventsCentroid (mean : List GPSTrackPoint → GeoLocation)
    (config : AnalyticsConfig) : List GPSTrackPoint → List IdleEvent
  | [] => []
  | p :: rest =>
      if isIdlePoint config p then
        (if config.longIdleThresholdMinutes ≤
            consecutiveDurationSum
              (p :: (rest.takeWhile (isIdlePoint config) ++
                ((rest.dropWhile (isIdlePoint config)).head?).toList)) then
          [{ startTime := p.timestamp
             endTime :=
               ((rest.takeWhile (isIdlePoint config) ++
                 ((rest.dropWhile (isIdlePoint config)).head?).toList).getLastD
                 p).timestamp
             durationMinutes :=
               consecutiveDurationSum
                 (p :: (rest.takeWhile (isIdlePoint config) ++
                   ((rest.dropWhile (isIdlePoint config)).head?).toList))
             location :=
               sphericalCentroid mean p
                 (rest.takeWhile (isIdlePoint config) ++
                   ((rest.dropWhile (isIdlePoint config)).head?).toList) }]
        else []) ++
        specIdleEventsCentroid mean config (rest.dropWhile (isIdlePoint config))
      else specIdleEventsCentroid mean config rest
termination_by l => l.length
decreasing_by
  · simp only [List.length_cons]
    exact Nat.lt_succ_of_le (dropWhile_length_le _ _)
  · simp

/-- In the run decomposition the location fallback chain always
resolves to the centroid value: the decomposition with fallbacks equals
the decomposition written without them, for every input. -/
lemma specFrom_eq_centroid (mean : List GPSTrackPoint → GeoLocation)
    (config : AnalyticsConfig) :
    ∀ (n : ℕ) (l : List GPSTrackPoint), l.length ≤ n →
    specIdleEventsFrom mean config l = specIdleEventsCentroid mean config l := by
  intro n
  induction n with
  | zero =>
      intro l hl
      have hnil : l = [] := List.eq_nil_of_length_eq_zero (Nat.le_zero.mp hl)
      subst hnil
      rw [specFrom_nil, specIdleEventsCentroid]
  | succ n ih =>
      intro l hl
      cases l with
      | nil => rw [specFrom_nil, specIdleEventsCentroid]
      | cons p t =>
          have ht : t.length ≤ n := by
            simp only [List.length_cons] at hl
            omega
          rw [specIdleEventsFrom, specIdleEventsCentroid]
          by_cases hidle : isIdlePoint config p = true
          · rw [if_pos hidle, if_pos hidle]
            congr 1
            · split
              · rw [calculateCentroid_cons]
                rfl
              · rfl
            · exact ih (t.dropWhile (isIdlePoint config))
                (le_trans (dropWhile_length_le _ t) ht)
          · rw [if_neg hidle, if_neg hidle]
            exact ih t ht

/-- C10: entering idle always seeds the tracker samples with the entry
point; calculateCentroid on any nonempty sample list is some of the
fallback-free spherical centroid, never none; every event emitted by
computeBaseMetrics appears in the run decomposition whose locations are
those fallback-free centroids of the runs own sampled points; and with
a positive threshold the emitted events are exactly that decomposition.
The start-location and origin fallback branches of exitIdleState are
therefore never taken. -/
theorem idle_event_location_is_centroid
    (dist : GPSTrackPoint → GPSTrackPoint → ℚ)
    (mean : List GPSTrackPoint → GeoLocation) (config : AnalyticsConfig)
    (track : GPSTrackResponse) :
    (∀ (tracker : IdleEventTracker) (p : GPSTrackPoint),
      (enterIdleState tracker p).idlePoints = [p]) ∧
    (∀ (p : GPSTrackPoint) (rest : List GPSTrackPoint),
      calculateCentroid mean (p :: rest) =
        some (sphericalCentroid mean p rest)) ∧
    (∀ e ∈ (computeBaseMetrics dist mean config track).longIdleEvents,
      e ∈ specIdleEventsCentroid mean config track.points) ∧
    (0 < config.longIdleThresholdMinutes →
      (computeBaseMetrics dist mean config track).longIdleEvents =
        specIdleEventsCentroid mean config track.points) := by
  refine ⟨fun tracker p => rfl, calculateCentroid_cons mean, ?_, ?_⟩
  · obtain ⟨vid, stT, enT, pts⟩ := track
    match pts with
    | [] =>
        intro e he
        rw [show (computeBaseMetrics dist mean config
          { vehicleId := vid, startTime := stT, endTime := enT,
            points := [] }).longIdleEvents = [] from rfl] at he
        exact absurd he (List.not_mem_nil e)
    | [single] =>
        intro e he
        rw [show (computeBaseMetrics dist mean config
          { vehicleId := vid, startTime := stT, endTime := enT,
            points := [single] }).longIdleEvents = [] from rfl] at he
        exact absurd he (List.not_mem_nil e)
    | p :: q :: rest =>
        intro e he
        rw [events_eq_specFrom_cons dist mean config vid stT enT p q rest,
          specFrom_eq_centroid mean config (p :: q :: rest).length
            (p :: q :: rest) (le_refl _)] at he
        exact he
  · intro hθ
    obtain ⟨vid, stT, enT, pts⟩ := track
    match pts with
    | [] =>
        rw [← specFrom_eq_centroid mean config 0 [] (le_refl _), specFrom_nil]
        rfl
    | [single] =>
        rw [← specFrom_eq_centroid mean config [single].length [single]
          (le_refl _), specFrom_single mean config single hθ]
        rfl
    | p :: q :: rest =>
        rw [events_eq_specFrom_cons dist mean config vid stT enT p q rest,
          specFrom_eq_centroid mean config (p :: q :: rest).length
            (p :: q :: rest) (le_refl _)]

lemma wPtA_idle : isIdlePoint exampleConfig wPtA = true := by
  norm_num [isIdlePoint, classifyPointState, wPtA, exampleConfig]

lemma wPtB_idle : isIdlePoint exampleConfig wPtB = true := by
  norm_num [isIdlePoint, classifyPointState, wPtB, exampleConfig]

lemma wPtC_not_idle : isIdlePoint exampleConfig wPtC = false := by
  norm_num [isIdlePoint, classifyPointState, wPtC, exampleConfig]
  decide

/-- Concrete evaluation of the witness track for any spherical mean:
the twelve-minute idle run produces exactly one event, located at the
mean of its three sampled points. -/
lemma witnessTrackC4_events (mean : List GPSTrackPoint → GeoLocation) :
    (computeBaseMetrics zeroDist mean exampleConfig
        witnessTrackC4).longIdleEvents =
      [{ startTime := some 0, endTime := some 720000, durationMinutes := 12,
         location := mean [wPtA, wPtB, wPtC] }] := by
  rw [show computeBaseMetrics zeroDist mean exampleConfig witnessTrackC4 =
      computeBaseMetrics zeroDist mean exampleConfig
        { vehicleId := "w4", startTime := some 0, endTime := some 720000,
          points := wPtA :: wPtB :: [wPtC] } from rfl,
    events_eq_specFrom_cons zeroDist mean exampleConfig "w4"
      (some 0) (some 720000) wPtA wPtB [wPtC],
    specFrom_cons_idle mean exampleConfig wPtA [wPtB, wPtC] wPtA_idle,
    runEventOut_cons_idle mean exampleConfig wPtA.timestamp
      { lat := wPtA.latitude, lng := wPtA.longitude } 0 [wPtA] wPtA wPtB
      [wPtC] wPtB_idle,
    runEventOut_cons_nonidle mean exampleConfig wPtA.timestamp
      { lat := wPtA.latitude, lng := wPtA.longitude }
      (0 + getPointDurationMinutes wPtA wPtB) ([wPtA] ++ [wPtB]) wPtB wPtC
      [] wPtC_not_idle,
    List.dropWhile_cons_of_pos wPtB_idle,
    List.dropWhile_cons_of_neg (by simp [wPtC_not_idle]),
    specFrom_cons_nonidle mean exampleConfig wPtC [] wPtC_not_idle,
    specFrom_nil, List.append_nil]
  rw [if_pos (by norm_num [getPointDurationMinutes, getDurationMinutes,
    wPtA, wPtB, wPtC, exampleConfig])]
  norm_num [getPointDurationMinutes, getDurationMinutes, wPtA, wPtB, wPtC,
    calculateCentroid]

/-- A spherical-mean stand-in distinct from the origin fallback value,
so the witness visibly exercises the centroid branch. -/
def offsetMean : List GPSTrackPoint → GeoLocation :=
  fun _ => { lat := 3, lng := 4 }

/-- Witness for C10: on the concrete idle-run track the emitted event,
located at the mean of its three sampled points and not at the origin
fallback, is in the centroid-located decomposition, which equals the
emitted event list. -/
theorem idle_event_location_is_centroid_witness :
    ({ startTime := some 0, endTime := some 720000, durationMinutes := 12,
       location := { lat := 3, lng := 4 } } : IdleEvent) ∈
      specIdleEventsCentroid offsetMean exampleConfig witnessTrackC4.points ∧
    (computeBaseMetrics zeroDist offsetMean exampleConfig
        witnessTrackC4).longIdleEvents =
      specIdleEventsCentroid offsetMean exampleConfig witnessTrackC4.points :=
  ⟨(idle_event_location_is_centroid zeroDist offsetMean exampleConfig
      witnessTrackC4).2.2.1
    { startTime := some 0, endTime := some 720000, durationMinutes := 12,
      location := { lat := 3, lng := 4 } }
    (by rw [witnessTrackC4_events offsetMean]
        exact List.mem_singleton.mpr rfl),
   (idle_event_location_is_centroid zeroDist offsetMean exampleConfig
      witnessTrackC4).2.2.2 (by norm_num [exampleConfig])⟩

end Fleet
